import Mathlib

/-!
Verification of the SEFAZ NF-e client (Rust repository) against its
natural-language specification.

Rust strings are embedded as `List Char`; the protocol content handled by the
claims (access keys, status codes, XML tags) is ASCII, where Rust byte length
and character count coincide.  Machine integers (`u8`/`u16`/`u32`) are embedded
as `Nat`: the arithmetic performed by the embedded functions (check-digit sums
bounded by 43*9*9, parses of at most nine decimal digits) never reaches the
corresponding Rust type bounds, so no wrap-around modelling is needed; where a
Rust `parse::<uN>` could overflow on untrusted input, the embedding carries the
explicit bound.
-/

/-- Char list of a string literal (Rust `&str` contents). -/
def str (s : String) : List Char := s.data

deriving instance DecidableEq for Except

/-- Numeric value of an ASCII digit character (Rust `char::to_digit(10)` on a
digit). -/
def digitVal (c : Char) : Nat := c.toNat - 48

/-- The ASCII digit character for `d < 10` (how Rust `format!` renders a single
decimal digit). -/
def digitChar (d : Nat) : Char := Char.ofNat (48 + d)

/-! ## src/web/src/sefaz/consulta.rs -/

/-- Weight cycle of `calcular_dv_mod11` (`let pesos = [2,3,4,5,6,7,8,9]`). -/
def pesos : List Nat := [2, 3, 4, 5, 6, 7, 8, 9]

/-- The summation loop of `calcular_dv_mod11`: iterate over the (already
reversed) characters; a digit contributes `d * pesos[peso_idx % 8]` and bumps
`peso_idx`; a non-digit is skipped without bumping. -/
def dvSomaAux : List Char → Nat → Nat
  | [], _ => 0
  | c :: cs, pesoIdx =>
    if c.isDigit then digitVal c * pesos.getD (pesoIdx % 8) 0 + dvSomaAux cs (pesoIdx + 1)
    else dvSomaAux cs pesoIdx

/-- `calcular_dv_mod11` (consulta.rs:141-159). -/
def calcular_dv_mod11 (chave : List Char) : Nat :=
  let soma := dvSomaAux chave.reverse 0
  let resto := soma % 11
  if resto = 0 ∨ resto = 1 then 0 else 11 - resto

/-- Weighted remainder of a key body, as computed inside `calcular_dv_mod11`
(`soma % 11`).  Used to state which single-digit corruptions are detectable. -/
def resto_mod11 (chave : List Char) : Nat := dvSomaAux chave.reverse 0 % 11

/-! ### Check-digit rule as worded by the specification (§4.1)

These definitions follow the spec sentence, for comparison with
`calcular_dv_mod11`: scan the digits right-to-left, multiply by the repeating
weight cycle `[2,3,4,5,6,7,8,9]` (reset every 8), sum, take `mod 11`, and map
remainders 0 and 1 to check digit 0, else `11 - remainder`. -/

/-- Spec §4.1: the weight used for the `i`-th digit counted from the right. -/
def specWeight (i : Nat) : Nat := [2, 3, 4, 5, 6, 7, 8, 9].getD (i % 8) 0

/-- Spec §4.1: weighted sum of the digits of the body listed right-to-left,
starting at cycle position `i`. -/
def specSomaFrom : List Nat → Nat → Nat
  | [], _ => 0
  | d :: ds, i => d * specWeight i + specSomaFrom ds (i + 1)

/-- Spec §4.1: the full weighted sum of a body given as digit values in
left-to-right order. -/
def specSoma (ds : List Nat) : Nat := specSomaFrom ds.reverse 0

/-- Spec §4.1: the check digit of a 43-digit body given as digit values. -/
def specCheckDigit (ds : List Nat) : Nat :=
  let r := specSoma ds % 11
  if r = 0 ∨ r = 1 then 0 else 11 - r

/-! ### Bridging lemmas -/

theorem dvSomaAux_eq_specSomaFrom (cs : List Char) (h : ∀ c ∈ cs, c.isDigit = true) :
    ∀ i, dvSomaAux cs i = specSomaFrom (cs.map digitVal) i := by
  induction cs with
  | nil => intro i; rfl
  | cons c cs ih =>
    intro i
    have hc : c.isDigit = true := h c (List.mem_cons_self _ _)
    have hcs : ∀ c ∈ cs, c.isDigit = true := fun x hx => h x (List.mem_cons_of_mem _ hx)
    simp only [dvSomaAux, hc, if_true, List.map_cons, specSomaFrom, ih hcs]
    rfl

/-- First claim: `calcular_dv_mod11` computes exactly the specification's
mod-11 rule on every all-digit body. -/
theorem calcular_dv_eq_spec (cs : List Char) (h : ∀ c ∈ cs, c.isDigit = true) :
    calcular_dv_mod11 cs = specCheckDigit (cs.map digitVal) := by
  have hrev : ∀ c ∈ cs.reverse, c.isDigit = true := fun c hc => h c (List.mem_reverse.mp hc)
  simp only [calcular_dv_mod11, specCheckDigit, specSoma, ← List.map_reverse,
    dvSomaAux_eq_specSomaFrom cs.reverse hrev 0]

/-- C1: the check-digit function computes exactly the spec's mod-11 rule for
every 43-digit body: right-to-left scan, repeating weight cycle
`[2,3,4,5,6,7,8,9]` resetting every 8 digits, remainder `sum % 11`, result 0
for remainders 0 and 1, else `11 - remainder`. -/
theorem claim_C1_dv_mod11_matches_spec (cs : List Char)
    (_hlen : cs.length = 43) (hdig : ∀ c ∈ cs, c.isDigit = true) :
    calcular_dv_mod11 cs = specCheckDigit (cs.map digitVal) :=
  calcular_dv_eq_spec cs hdig

/-- Witness for C1 at the 43-digit body used by the repository's own test. -/
theorem claim_C1_witness :
    calcular_dv_mod11 (str "3524061526691200018755001000660047167429900") =
      specCheckDigit ((str "3524061526691200018755001000660047167429900").map digitVal) :=
  claim_C1_dv_mod11_matches_spec _ (by decide) (by decide)

/-! ### Decimal formatting and parsing helpers

`natRepr n` is the decimal rendering of `n` (Rust `format!("{}", n)`); `fmtPad
w n` is the zero-padded rendering (Rust `format!("{:0w}", n)`, which pads with
leading zeros up to width `w` and keeps longer renderings unchanged). -/

/-- Digit-extraction loop behind `natRepr`; the fuel argument only bounds the
recursion depth (`n` itself is always enough fuel). -/
def natReprAux : Nat → Nat → List Char
  | 0, _ => []
  | fuel + 1, n => if n = 0 then [] else natReprAux fuel (n / 10) ++ [digitChar (n % 10)]

/-- Decimal rendering of a natural number, most significant digit first. -/
def natRepr (n : Nat) : List Char :=
  if n = 0 then ['0'] else natReprAux n n

theorem natReprAux_eq (fuel : Nat) : ∀ n, n ≤ fuel →
    natReprAux fuel n = ((Nat.digits 10 n).map digitChar).reverse := by
  induction fuel with
  | zero =>
    intro n h
    interval_cases n
    simp [natReprAux]
  | succ f ih =>
    intro n h
    by_cases h0 : n = 0
    · subst h0
      simp [natReprAux]
    · have hdiv : n / 10 ≤ f := by omega
      rw [natReprAux, if_neg h0, ih (n / 10) hdiv,
        Nat.digits_def' (by norm_num : (1:Nat) < 10) (Nat.pos_of_ne_zero h0)]
      simp

/-- `natRepr` agrees with the `Nat.digits`-based rendering. -/
theorem natRepr_eq (n : Nat) :
    natRepr n = if n = 0 then ['0'] else ((Nat.digits 10 n).map digitChar).reverse := by
  unfold natRepr
  by_cases h : n = 0
  · simp [h]
  · rw [if_neg h, if_neg h, natReprAux_eq n n le_rfl]

/-- Zero-padded decimal rendering (Rust `{:0w}` formatting). -/
def fmtPad (w n : Nat) : List Char :=
  List.replicate (w - (natRepr n).length) '0' ++ natRepr n

/-- Value of a digit string read most significant digit first (the accumulator
loop inside Rust's `str::parse`). -/
def valBEc (cs : List Char) : Nat := cs.foldl (fun a c => a * 10 + digitVal c) 0

/-- Rust `str::parse::<uN>()` restricted to the shapes occurring in
`validar_chave_acesso`: the input is a fatia of an all-digit string, so the
parse succeeds exactly when the fatia is nonempty and all digits (at most nine
digits are ever parsed, so the `uN` bounds are never reached). -/
def parseNat (cs : List Char) : Option Nat :=
  if cs ≠ [] ∧ cs.all Char.isDigit then some (valBEc cs) else none

/-- Rust `str::parse::<u16>()` on untrusted text (used on extracted `cStat`
values): accepts an optional leading `+`, then one or more digits, and fails on
overflow past `u16::MAX`. -/
def parseU16 (cs : List Char) : Option Nat :=
  let ds := match cs with
    | '+' :: rest => rest
    | _ => cs
  if ds ≠ [] ∧ ds.all Char.isDigit ∧ valBEc ds ≤ 65535 then some (valBEc ds) else none

/-- Rust `str::parse::<u32>()` on untrusted text. -/
def parseU32 (cs : List Char) : Option Nat :=
  let ds := match cs with
    | '+' :: rest => rest
    | _ => cs
  if ds ≠ [] ∧ ds.all Char.isDigit ∧ valBEc ds ≤ 4294967295 then some (valBEc ds) else none

/-- Rust `s.chars().filter(|c| c.is_ascii_digit()).collect()`. -/
def filtrarDigitos (s : List Char) : List Char := s.filter Char.isDigit

/-- Rust byte-range slicing (a..b) on ASCII content. -/
def fatia (s : List Char) (a b : Nat) : List Char := (s.drop a).take (b - a)

/-- ASCII upper-casing, matching Rust `str::to_uppercase` on the ASCII region
codes it is applied to. -/
def toUpperStr (s : List Char) : List Char := s.map Char.toUpper

/-- The region-code match at the head of `gerar_chave_acesso`
(consulta.rs:109-117): two-letter region to two-digit code. -/
def ufParaCodigo (uf : List Char) : Option (List Char) :=
  if uf = str "AC" then some (str "12") else
  if uf = str "AL" then some (str "27") else
  if uf = str "AP" then some (str "16") else
  if uf = str "AM" then some (str "13") else
  if uf = str "BA" then some (str "29") else
  if uf = str "CE" then some (str "23") else
  if uf = str "DF" then some (str "53") else
  if uf = str "ES" then some (str "32") else
  if uf = str "GO" then some (str "52") else
  if uf = str "MA" then some (str "21") else
  if uf = str "MT" then some (str "51") else
  if uf = str "MS" then some (str "50") else
  if uf = str "MG" then some (str "31") else
  if uf = str "PA" then some (str "15") else
  if uf = str "PB" then some (str "25") else
  if uf = str "PR" then some (str "41") else
  if uf = str "PE" then some (str "26") else
  if uf = str "PI" then some (str "22") else
  if uf = str "RJ" then some (str "33") else
  if uf = str "RN" then some (str "24") else
  if uf = str "RS" then some (str "43") else
  if uf = str "RO" then some (str "11") else
  if uf = str "RR" then some (str "14") else
  if uf = str "SC" then some (str "42") else
  if uf = str "SP" then some (str "35") else
  if uf = str "SE" then some (str "28") else
  if uf = str "TO" then some (str "17") else none

/-- `codigo_uf_para_sigla` (consulta.rs:214-232). -/
def codigo_uf_para_sigla (codigo : Nat) : Option (List Char) :=
  if codigo = 12 then some (str "AC") else
  if codigo = 27 then some (str "AL") else
  if codigo = 16 then some (str "AP") else
  if codigo = 13 then some (str "AM") else
  if codigo = 29 then some (str "BA") else
  if codigo = 23 then some (str "CE") else
  if codigo = 53 then some (str "DF") else
  if codigo = 32 then some (str "ES") else
  if codigo = 52 then some (str "GO") else
  if codigo = 21 then some (str "MA") else
  if codigo = 51 then some (str "MT") else
  if codigo = 50 then some (str "MS") else
  if codigo = 31 then some (str "MG") else
  if codigo = 15 then some (str "PA") else
  if codigo = 25 then some (str "PB") else
  if codigo = 41 then some (str "PR") else
  if codigo = 26 then some (str "PE") else
  if codigo = 22 then some (str "PI") else
  if codigo = 33 then some (str "RJ") else
  if codigo = 24 then some (str "RN") else
  if codigo = 43 then some (str "RS") else
  if codigo = 11 then some (str "RO") else
  if codigo = 14 then some (str "RR") else
  if codigo = 42 then some (str "SC") else
  if codigo = 35 then some (str "SP") else
  if codigo = 28 then some (str "SE") else
  if codigo = 17 then some (str "TO") else none

/-- `gerar_chave_acesso` (consulta.rs:99-138).  Error messages are abbreviated
forms of the Rust `format!` messages; all claims depend only on which branch is
taken. -/
def gerar_chave_acesso (uf ano_mes cnpj : List Char)
    (modelo serie numero tipo_emissao codigo_numerico : Nat) :
    Except (List Char) (List Char) :=
  match ufParaCodigo (toUpperStr uf) with
  | none => .error (str "UF invalida")
  | some codigo_uf =>
    let cnpj_limpo := filtrarDigitos cnpj
    if cnpj_limpo.length ≠ 14 then .error (str "CNPJ invalido") else
    let chave_sem_dv := codigo_uf ++ ano_mes ++ cnpj_limpo ++ fmtPad 2 modelo ++
      fmtPad 3 serie ++ fmtPad 9 numero ++ natRepr tipo_emissao ++ fmtPad 8 codigo_numerico
    if chave_sem_dv.length ≠ 43 then .error (str "Chave com tamanho invalido") else
    .ok (chave_sem_dv ++ [digitChar (calcular_dv_mod11 chave_sem_dv)])

/-- `ChaveAcessoInfo` (consulta.rs:236-248). -/
structure ChaveAcessoInfo where
  chave : List Char
  uf : List Char
  ano_mes : List Char
  cnpj : List Char
  modelo : Nat
  tipo_documento : List Char
  serie : Nat
  numero : Nat
  tipo_emissao : Nat
  codigo_numerico : Nat
  dv : Nat
deriving DecidableEq

/-- `validar_chave_acesso` (consulta.rs:162-212).  Non-digit characters are
filtered out first; the component slices of the cleaned digit string are then
parsed, the recomputed check digit compared against digit 44, and the leading
two-digit region code looked up. -/
def validar_chave_acesso (chave : List Char) : Except (List Char) ChaveAcessoInfo :=
  let chave_limpa := filtrarDigitos chave
  if chave_limpa.length ≠ 44 then .error (str "Chave deve ter 44 digitos") else
  match parseNat (fatia chave_limpa 0 2) with
  | none => .error (str "UF invalida")
  | some codigo_uf =>
  let ano_mes := fatia chave_limpa 2 6
  let cnpj := fatia chave_limpa 6 20
  match parseNat (fatia chave_limpa 20 22) with
  | none => .error (str "Modelo invalido")
  | some modelo =>
  match parseNat (fatia chave_limpa 22 25) with
  | none => .error (str "Serie invalida")
  | some serie =>
  match parseNat (fatia chave_limpa 25 34) with
  | none => .error (str "Numero invalido")
  | some numero =>
  match parseNat (fatia chave_limpa 34 35) with
  | none => .error (str "Tipo emissao invalido")
  | some tipo_emissao =>
  match parseNat (fatia chave_limpa 35 43) with
  | none => .error (str "Codigo numerico invalido")
  | some codigo_numerico =>
  match parseNat (fatia chave_limpa 43 44) with
  | none => .error (str "DV invalido")
  | some dv_informado =>
  let dv_calculado := calcular_dv_mod11 (fatia chave_limpa 0 43)
  if dv_informado ≠ dv_calculado then .error (str "DV invalido: divergente") else
  match codigo_uf_para_sigla codigo_uf with
  | none => .error (str "Codigo UF invalido")
  | some uf =>
  let tipo_doc :=
    if modelo = 55 then str "NF-e" else
    if modelo = 65 then str "NFC-e" else
    if modelo = 57 then str "CT-e" else
    if modelo = 58 then str "MDF-e" else
    if modelo = 59 then str "CF-e SAT" else str "Desconhecido"
  .ok { chave := chave_limpa, uf := uf, ano_mes := ano_mes, cnpj := cnpj,
        modelo := modelo, tipo_documento := tipo_doc, serie := serie,
        numero := numero, tipo_emissao := tipo_emissao,
        codigo_numerico := codigo_numerico, dv := dv_informado }

/-! ### Digit and formatting lemmas -/

theorem digitVal_digitChar {d : Nat} (h : d < 10) : digitVal (digitChar d) = d := by
  interval_cases d <;> rfl

theorem isDigit_digitChar {d : Nat} (h : d < 10) : (digitChar d).isDigit = true := by
  interval_cases d <;> rfl

theorem digitChar_digitVal {c : Char} (h : c.isDigit = true) : digitChar (digitVal c) = c := by
  have h48 : 48 ≤ c.toNat ∧ c.toNat ≤ 57 := by
    simp only [Char.isDigit, decide_eq_true_eq, Bool.and_eq_true, decide_eq_true_iff] at h
    exact ⟨h.1, h.2⟩
  have : 48 + digitVal c = c.toNat := by unfold digitVal; omega
  rw [digitChar, this, Char.ofNat_toNat]

theorem digitVal_lt_ten {c : Char} (h : c.isDigit = true) : digitVal c < 10 := by
  have : 48 ≤ c.toNat ∧ c.toNat ≤ 57 := by
    simp only [Char.isDigit, decide_eq_true_eq, Bool.and_eq_true, decide_eq_true_iff] at h
    exact ⟨h.1, h.2⟩
  unfold digitVal; omega

theorem natRepr_all_digits (n : Nat) : ∀ c ∈ natRepr n, c.isDigit = true := by
  intro c hc
  rw [natRepr_eq] at hc
  split at hc
  · simp at hc; subst hc; rfl
  · rw [List.mem_reverse, List.mem_map] at hc
    obtain ⟨d, hd, rfl⟩ := hc
    exact isDigit_digitChar (Nat.digits_lt_base (by norm_num) hd)

theorem natRepr_ne_nil (n : Nat) : natRepr n ≠ [] := by
  rw [natRepr_eq]
  split
  · simp
  · simp [Nat.digits_ne_nil_iff_ne_zero, *]

theorem length_natRepr_le {n w : Nat} (hw : 1 ≤ w) (h : n < 10 ^ w) :
    (natRepr n).length ≤ w := by
  rw [natRepr_eq]
  split
  · simpa
  · simp only [List.length_reverse, List.length_map]
    rw [Nat.digits_len 10 n (by norm_num) (by assumption)]
    have := Nat.log_lt_of_lt_pow (by assumption) h
    omega

theorem length_natRepr_of_lt_ten {n : Nat} (h : n < 10) : (natRepr n).length = 1 := by
  interval_cases n <;> norm_num [natRepr_eq, Nat.digits_def']

theorem valBEc_append_singleton (xs : List Char) (x : Char) :
    valBEc (xs ++ [x]) = valBEc xs * 10 + digitVal x := by
  unfold valBEc
  rw [List.foldl_append]
  rfl

theorem valBEc_map_digitChar_reverse (ds : List Nat) (h : ∀ d ∈ ds, d < 10) :
    valBEc ((ds.map digitChar).reverse) = Nat.ofDigits 10 ds := by
  induction ds with
  | nil => rfl
  | cons d ds ih =>
    have hd : d < 10 := h d (List.mem_cons_self _ _)
    have hds : ∀ x ∈ ds, x < 10 := fun x hx => h x (List.mem_cons_of_mem _ hx)
    simp only [List.map_cons, List.reverse_cons, valBEc_append_singleton, ih hds,
      Nat.ofDigits_cons, digitVal_digitChar hd]
    ring

theorem valBEc_natRepr (n : Nat) : valBEc (natRepr n) = n := by
  rw [natRepr_eq]
  split
  · simp [valBEc, digitVal, *]
  · rw [valBEc_map_digitChar_reverse _ (fun d hd => Nat.digits_lt_base (by norm_num) hd),
      Nat.ofDigits_digits]

theorem valBEc_replicate_zero (k : Nat) (cs : List Char) :
    valBEc (List.replicate k '0' ++ cs) = valBEc cs := by
  induction k with
  | zero => rfl
  | succ k ih =>
    rw [List.replicate_succ, List.cons_append]
    show valBEc (List.replicate k '0' ++ cs) = valBEc cs
    exact ih

theorem valBEc_fmtPad (w n : Nat) : valBEc (fmtPad w n) = n := by
  rw [fmtPad, valBEc_replicate_zero, valBEc_natRepr]

theorem fmtPad_all_digits (w n : Nat) : ∀ c ∈ fmtPad w n, c.isDigit = true := by
  intro c hc
  rw [fmtPad, List.mem_append] at hc
  rcases hc with hc | hc
  · rw [List.eq_of_mem_replicate hc]; rfl
  · exact natRepr_all_digits n c hc

theorem length_fmtPad {w n : Nat} (hw : 1 ≤ w) (h : n < 10 ^ w) :
    (fmtPad w n).length = w := by
  have := length_natRepr_le hw h
  simp only [fmtPad, List.length_append, List.length_replicate]
  omega

theorem filtrarDigitos_of_all {s : List Char} (h : ∀ c ∈ s, c.isDigit = true) :
    filtrarDigitos s = s :=
  List.filter_eq_self.mpr h

theorem filtrarDigitos_all_digits (s : List Char) :
    ∀ c ∈ filtrarDigitos s, c.isDigit = true := fun _ hc => List.of_mem_filter hc

theorem parseNat_eq {cs : List Char} (hne : cs ≠ []) (hd : ∀ c ∈ cs, c.isDigit = true) :
    parseNat cs = some (valBEc cs) := by
  rw [parseNat, if_pos ⟨hne, List.all_eq_true.mpr hd⟩]

theorem calcular_dv_le_nine (b : List Char) : calcular_dv_mod11 b ≤ 9 := by
  unfold calcular_dv_mod11
  have : dvSomaAux b.reverse 0 % 11 < 11 := Nat.mod_lt _ (by norm_num)
  simp only []
  split <;> omega

/-! ### Slicing lemmas -/

theorem fatia_of_append {s t u : List Char} {a b : Nat}
    (ha : s.length = a) (hb : b = a + t.length) :
    fatia (s ++ (t ++ u)) a b = t := by
  subst ha hb
  unfold fatia
  rw [List.drop_left, Nat.add_sub_cancel_left, List.take_left]

theorem fatia_zero_take (s : List Char) (b : Nat) : fatia s 0 b = s.take b := by
  simp [fatia]

theorem length_fatia (s : List Char) (a b : Nat) :
    (fatia s a b).length = min (b - a) (s.length - a) := by
  simp [fatia]

theorem fatia_all_digits {s : List Char} (h : ∀ c ∈ s, c.isDigit = true) (a b : Nat) :
    ∀ c ∈ fatia s a b, c.isDigit = true :=
  fun c hc => h c (List.mem_of_mem_drop (List.mem_of_mem_take hc))

theorem parse_fatia {f : List Char} (hdig : ∀ c ∈ f, c.isDigit = true)
    (hlen : f.length = 44) {a b : Nat} (hab : a < b) (hb : b ≤ 44) :
    parseNat (fatia f a b) = some (valBEc (fatia f a b)) := by
  apply parseNat_eq _ (fatia_all_digits hdig a b)
  have hl := length_fatia f a b
  intro hnil
  rw [hnil, hlen] at hl
  simp only [List.length_nil] at hl
  omega

/-- Success characterization of `validar_chave_acesso`: after discarding
non-digit characters, validation succeeds exactly when 44 digits remain, the
check digit recomputed over the first 43 agrees with the 44th, and the leading
two-digit region code is known. -/
theorem validar_isOk_iff (s : List Char) :
    (validar_chave_acesso s).isOk = true ↔
      ((filtrarDigitos s).length = 44 ∧
       calcular_dv_mod11 ((filtrarDigitos s).take 43) =
         valBEc (fatia (filtrarDigitos s) 43 44) ∧
       (codigo_uf_para_sigla (valBEc (fatia (filtrarDigitos s) 0 2))).isSome = true) := by
  have hdig := filtrarDigitos_all_digits s
  unfold validar_chave_acesso
  by_cases hlen : (filtrarDigitos s).length = 44
  · rw [if_neg (by omega)]
    rw [parse_fatia hdig hlen (by norm_num) (by norm_num),
      parse_fatia hdig hlen (show (20:Nat) < 22 by norm_num) (by norm_num),
      parse_fatia hdig hlen (show (22:Nat) < 25 by norm_num) (by norm_num),
      parse_fatia hdig hlen (show (25:Nat) < 34 by norm_num) (by norm_num),
      parse_fatia hdig hlen (show (34:Nat) < 35 by norm_num) (by norm_num),
      parse_fatia hdig hlen (show (35:Nat) < 43 by norm_num) (by norm_num),
      parse_fatia hdig hlen (show (43:Nat) < 44 by norm_num) (by norm_num)]
    simp only [← fatia_zero_take]
    by_cases hdv : valBEc (fatia (filtrarDigitos s) 43 44) =
        calcular_dv_mod11 (fatia (filtrarDigitos s) 0 43)
    · rw [if_neg (by omega)]
      cases hsig : codigo_uf_para_sigla (valBEc (fatia (filtrarDigitos s) 0 2)) with
      | none => simp [hlen, hdv, hsig, Except.isOk, Except.toBool]
      | some u => simp [hlen, hdv, hsig, Except.isOk, Except.toBool]
    · rw [if_pos (by omega)]
      simp only [Except.isOk, Except.toBool]
      constructor
      · intro h; cases h
      · intro h; omega
  · rw [if_pos (by omega)]
    simp only [Except.isOk, Except.toBool]
    constructor
    · intro h; cases h
    · intro h; exact absurd h.1 hlen

/-- C4 (corrected): validation does not fail on every non-digit character;
non-digit characters are discarded first.  Amended claim: validation fails
exactly when, after discarding non-digit characters, the remaining digit string
does not have length 44, or the check digit recomputed over its first 43
digits disagrees with its 44th digit, or its leading two-digit region code is
not a known region. -/
theorem claim_C4_amended (s : List Char) :
    (validar_chave_acesso s).isOk = true ↔
      ((filtrarDigitos s).length = 44 ∧
       calcular_dv_mod11 ((filtrarDigitos s).take 43) =
         valBEc (fatia (filtrarDigitos s) 43 44) ∧
       (codigo_uf_para_sigla (valBEc (fatia (filtrarDigitos s) 0 2))).isSome = true) :=
  validar_isOk_iff s

/-- C4 counterexample: this input contains the non-digit `a` (and has length
45), yet `validar_chave_acesso` accepts it, because non-digit characters are
filtered out before any check. -/
theorem claim_C4_counterexample :
    (str "35a240615266912000187550010006600471100000100").all Char.isDigit = false ∧
    (validar_chave_acesso (str "35a240615266912000187550010006600471100000100")).isOk
      = true := by
  decide

/-- Every branch of the region-code table: a region accepted by
`gerar_chave_acesso`'s match yields a two-digit code that
`codigo_uf_para_sigla` maps back to the same (upper-case) region. -/
theorem ufParaCodigo_facts {uf code : List Char} (h : ufParaCodigo uf = some code) :
    code.length = 2 ∧ (∀ c ∈ code, c.isDigit = true) ∧
      codigo_uf_para_sigla (valBEc code) = some uf ∧ toUpperStr uf = uf := by
  unfold ufParaCodigo at h
  by_cases e0 : uf = str "AC"
  · rw [if_pos e0] at h
    injection h with h2
    subst h2; subst e0
    exact ⟨by decide, by decide, by decide, by decide⟩
  rw [if_neg e0] at h
  by_cases e1 : uf = str "AL"
  · rw [if_pos e1] at h
    injection h with h2
    subst h2; subst e1
    exact ⟨by decide, by decide, by decide, by decide⟩
  rw [if_neg e1] at h
  by_cases e2 : uf = str "AP"
  · rw [if_pos e2] at h
    injection h with h2
    subst h2; subst e2
    exact ⟨by decide, by decide, by decide, by decide⟩
  rw [if_neg e2] at h
  by_cases e3 : uf = str "AM"
  · rw [if_pos e3] at h
    injection h with h2
    subst h2; subst e3
    exact ⟨by decide, by decide, by decide, by decide⟩
  rw [if_neg e3] at h
  by_cases e4 : uf = str "BA"
  · rw [if_pos e4] at h
    injection h with h2
    subst h2; subst e4
    exact ⟨by decide, by decide, by decide, by decide⟩
  rw [if_neg e4] at h
  by_cases e5 : uf = str "CE"
  · rw [if_pos e5] at h
    injection h with h2
    subst h2; subst e5
    exact ⟨by decide, by decide, by decide, by decide⟩
  rw [if_neg e5] at h
  by_cases e6 : uf = str "DF"
  · rw [if_pos e6] at h
    injection h with h2
    subst h2; subst e6
    exact ⟨by decide, by decide, by decide, by decide⟩
  rw [if_neg e6] at h
  by_cases e7 : uf = str "ES"
  · rw [if_pos e7] at h
    injection h with h2
    subst h2; subst e7
    exact ⟨by decide, by decide, by decide, by decide⟩
  rw [if_neg e7] at h
  by_cases e8 : uf = str "GO"
  · rw [if_pos e8] at h
    injection h with h2
    subst h2; subst e8
    exact ⟨by decide, by decide, by decide, by decide⟩
  rw [if_neg e8] at h
  by_cases e9 : uf = str "MA"
  · rw [if_pos e9] at h
    injection h with h2
    subst h2; subst e9
    exact ⟨by decide, by decide, by decide, by decide⟩
  rw [if_neg e9] at h
  by_cases e10 : uf = str "MT"
  · rw [if_pos e10] at h
    injection h with h2
    subst h2; subst e10
    exact ⟨by decide, by decide, by decide, by decide⟩
  rw [if_neg e10] at h
  by_cases e11 : uf = str "MS"
  · rw [if_pos e11] at h
    injection h with h2
    subst h2; subst e11
    exact ⟨by decide, by decide, by decide, by decide⟩
  rw [if_neg e11] at h
  by_cases e12 : uf = str "MG"
  · rw [if_pos e12] at h
    injection h with h2
    subst h2; subst e12
    exact ⟨by decide, by decide, by decide, by decide⟩
  rw [if_neg e12] at h
  by_cases e13 : uf = str "PA"
  · rw [if_pos e13] at h
    injection h with h2
    subst h2; subst e13
    exact ⟨by decide, by decide, by decide, by decide⟩
  rw [if_neg e13] at h
  by_cases e14 : uf = str "PB"
  · rw [if_pos e14] at h
    injection h with h2
    subst h2; subst e14
    exact ⟨by decide, by decide, by decide, by decide⟩
  rw [if_neg e14] at h
  by_cases e15 : uf = str "PR"
  · rw [if_pos e15] at h
    injection h with h2
    subst h2; subst e15
    exact ⟨by decide, by decide, by decide, by decide⟩
  rw [if_neg e15] at h
  by_cases e16 : uf = str "PE"
  · rw [if_pos e16] at h
    injection h with h2
    subst h2; subst e16
    exact ⟨by decide, by decide, by decide, by decide⟩
  rw [if_neg e16] at h
  by_cases e17 : uf = str "PI"
  · rw [if_pos e17] at h
    injection h with h2
    subst h2; subst e17
    exact ⟨by decide, by decide, by decide, by decide⟩
  rw [if_neg e17] at h
  by_cases e18 : uf = str "RJ"
  · rw [if_pos e18] at h
    injection h with h2
    subst h2; subst e18
    exact ⟨by decide, by decide, by decide, by decide⟩
  rw [if_neg e18] at h
  by_cases e19 : uf = str "RN"
  · rw [if_pos e19] at h
    injection h with h2
    subst h2; subst e19
    exact ⟨by decide, by decide, by decide, by decide⟩
  rw [if_neg e19] at h
  by_cases e20 : uf = str "RS"
  · rw [if_pos e20] at h
    injection h with h2
    subst h2; subst e20
    exact ⟨by decide, by decide, by decide, by decide⟩
  rw [if_neg e20] at h
  by_cases e21 : uf = str "RO"
  · rw [if_pos e21] at h
    injection h with h2
    subst h2; subst e21
    exact ⟨by decide, by decide, by decide, by decide⟩
  rw [if_neg e21] at h
  by_cases e22 : uf = str "RR"
  · rw [if_pos e22] at h
    injection h with h2
    subst h2; subst e22
    exact ⟨by decide, by decide, by decide, by decide⟩
  rw [if_neg e22] at h
  by_cases e23 : uf = str "SC"
  · rw [if_pos e23] at h
    injection h with h2
    subst h2; subst e23
    exact ⟨by decide, by decide, by decide, by decide⟩
  rw [if_neg e23] at h
  by_cases e24 : uf = str "SP"
  · rw [if_pos e24] at h
    injection h with h2
    subst h2; subst e24
    exact ⟨by decide, by decide, by decide, by decide⟩
  rw [if_neg e24] at h
  by_cases e25 : uf = str "SE"
  · rw [if_pos e25] at h
    injection h with h2
    subst h2; subst e25
    exact ⟨by decide, by decide, by decide, by decide⟩
  rw [if_neg e25] at h
  by_cases e26 : uf = str "TO"
  · rw [if_pos e26] at h
    injection h with h2
    subst h2; subst e26
    exact ⟨by decide, by decide, by decide, by decide⟩
  rw [if_neg e26] at h
  exact Option.noConfusion h


theorem fatia_zero_of_len {t u : List Char} {b : Nat} (hb : t.length = b) :
    fatia (t ++ u) 0 b = t := by
  subst hb
  simp [fatia, List.take_left]

/-- C2: composing an access key from a valid field tuple and validating the
result succeeds and returns exactly the composed fields, with the check digit
stable under re-computation.  A valid tuple has: a region with a known
two-letter code, a 4-digit year-month, a 14-digit taxpayer id, a model below
100, a series up to 999, a number below 10^9, a one-digit emission mode, and
an 8-digit random code. -/
theorem claim_C2_roundtrip
    (uf am cnpj code : List Char) (modelo serie numero tipo_emissao codigo_numerico : Nat)
    (hUf : ufParaCodigo uf = some code)
    (ham_len : am.length = 4) (ham_dig : ∀ c ∈ am, c.isDigit = true)
    (hcn_len : cnpj.length = 14) (hcn_dig : ∀ c ∈ cnpj, c.isDigit = true)
    (hmod : modelo < 100) (hser : serie ≤ 999) (hnum : numero < 1000000000)
    (htp : tipo_emissao < 10) (hcnf : codigo_numerico < 100000000) :
    ∃ k info,
      gerar_chave_acesso uf am cnpj modelo serie numero tipo_emissao codigo_numerico = .ok k ∧
      validar_chave_acesso k = .ok info ∧
      info.uf = uf ∧ info.ano_mes = am ∧ info.cnpj = cnpj ∧ info.modelo = modelo ∧
      info.serie = serie ∧ info.numero = numero ∧ info.tipo_emissao = tipo_emissao ∧
      info.codigo_numerico = codigo_numerico ∧
      info.dv = calcular_dv_mod11 (k.take 43) ∧ info.chave = k := by
  obtain ⟨hcl, hcd, hsig, hupper⟩ := ufParaCodigo_facts hUf
  have h4 : (fmtPad 2 modelo).length = 2 :=
    length_fmtPad (by norm_num) (by norm_num; omega)
  have h5 : (fmtPad 3 serie).length = 3 :=
    length_fmtPad (by norm_num) (by norm_num; omega)
  have h6 : (fmtPad 9 numero).length = 9 :=
    length_fmtPad (by norm_num) (by norm_num; omega)
  have h7 : (natRepr tipo_emissao).length = 1 := length_natRepr_of_lt_ten htp
  have h8 : (fmtPad 8 codigo_numerico).length = 8 :=
    length_fmtPad (by norm_num) (by norm_num; omega)
  set B := code ++ am ++ cnpj ++ fmtPad 2 modelo ++ fmtPad 3 serie ++ fmtPad 9 numero ++
    natRepr tipo_emissao ++ fmtPad 8 codigo_numerico with hBdef
  have hBlen : B.length = 43 := by
    simp only [hBdef, List.length_append, hcl, ham_len, hcn_len, h4, h5, h6, h7, h8]
  set dv := calcular_dv_mod11 B with hdvdef
  have hdv9 : dv < 10 := Nat.lt_succ_of_le (calcular_dv_le_nine B)
  have hger : gerar_chave_acesso uf am cnpj modelo serie numero tipo_emissao codigo_numerico
      = .ok (B ++ [digitChar dv]) := by
    simp only [gerar_chave_acesso, hupper, hUf, filtrarDigitos_of_all hcn_dig]
    rw [if_neg (by rw [hcn_len]; omega), if_neg (by rw [← hBdef, hBlen]; omega)]
  have hBdig : ∀ c ∈ B, c.isDigit = true := by
    intro c hc
    simp only [hBdef, List.mem_append] at hc
    rcases hc with ((((((h | h) | h) | h) | h) | h) | h) | h
    · exact hcd c h
    · exact ham_dig c h
    · exact hcn_dig c h
    · exact fmtPad_all_digits 2 modelo c h
    · exact fmtPad_all_digits 3 serie c h
    · exact fmtPad_all_digits 9 numero c h
    · exact natRepr_all_digits tipo_emissao c h
    · exact fmtPad_all_digits 8 codigo_numerico c h
  have hkdig : ∀ c ∈ B ++ [digitChar dv], c.isDigit = true := by
    intro c hc
    rcases List.mem_append.mp hc with h | h
    · exact hBdig c h
    · rw [List.mem_singleton] at h
      subst h
      exact isDigit_digitChar hdv9
  have hklen : (B ++ [digitChar dv]).length = 44 := by
    simp [hBlen]
  have f02 : fatia (B ++ [digitChar dv]) 0 2 = code := by
    rw [show B ++ [digitChar dv] = code ++ (am ++ cnpj ++ fmtPad 2 modelo ++
      fmtPad 3 serie ++ fmtPad 9 numero ++ natRepr tipo_emissao ++
      fmtPad 8 codigo_numerico ++ [digitChar dv]) from by
        simp [hBdef, List.append_assoc]]
    exact fatia_zero_of_len hcl
  have f26 : fatia (B ++ [digitChar dv]) 2 6 = am := by
    rw [show B ++ [digitChar dv] = code ++ (am ++ (cnpj ++ fmtPad 2 modelo ++
      fmtPad 3 serie ++ fmtPad 9 numero ++ natRepr tipo_emissao ++
      fmtPad 8 codigo_numerico ++ [digitChar dv])) from by
        simp [hBdef, List.append_assoc]]
    exact fatia_of_append hcl (by rw [ham_len])
  have f620 : fatia (B ++ [digitChar dv]) 6 20 = cnpj := by
    rw [show B ++ [digitChar dv] = (code ++ am) ++ (cnpj ++ (fmtPad 2 modelo ++
      fmtPad 3 serie ++ fmtPad 9 numero ++ natRepr tipo_emissao ++
      fmtPad 8 codigo_numerico ++ [digitChar dv])) from by
        simp [hBdef, List.append_assoc]]
    exact fatia_of_append (by simp [hcl, ham_len]) (by rw [hcn_len])
  have f2022 : fatia (B ++ [digitChar dv]) 20 22 = fmtPad 2 modelo := by
    rw [show B ++ [digitChar dv] = (code ++ am ++ cnpj) ++ (fmtPad 2 modelo ++
      (fmtPad 3 serie ++ fmtPad 9 numero ++ natRepr tipo_emissao ++
      fmtPad 8 codigo_numerico ++ [digitChar dv])) from by
        simp [hBdef, List.append_assoc]]
    exact fatia_of_append (by simp [hcl, ham_len, hcn_len]) (by rw [h4])
  have f2225 : fatia (B ++ [digitChar dv]) 22 25 = fmtPad 3 serie := by
    rw [show B ++ [digitChar dv] = (code ++ am ++ cnpj ++ fmtPad 2 modelo) ++
      (fmtPad 3 serie ++ (fmtPad 9 numero ++ natRepr tipo_emissao ++
      fmtPad 8 codigo_numerico ++ [digitChar dv])) from by
        simp [hBdef, List.append_assoc]]
    exact fatia_of_append (by simp [hcl, ham_len, hcn_len, h4]) (by rw [h5])
  have f2534 : fatia (B ++ [digitChar dv]) 25 34 = fmtPad 9 numero := by
    rw [show B ++ [digitChar dv] = (code ++ am ++ cnpj ++ fmtPad 2 modelo ++
      fmtPad 3 serie) ++ (fmtPad 9 numero ++ (natRepr tipo_emissao ++
      fmtPad 8 codigo_numerico ++ [digitChar dv])) from by
        simp [hBdef, List.append_assoc]]
    exact fatia_of_append (by simp [hcl, ham_len, hcn_len, h4, h5]) (by rw [h6])
  have f3435 : fatia (B ++ [digitChar dv]) 34 35 = natRepr tipo_emissao := by
    rw [show B ++ [digitChar dv] = (code ++ am ++ cnpj ++ fmtPad 2 modelo ++
      fmtPad 3 serie ++ fmtPad 9 numero) ++ (natRepr tipo_emissao ++
      (fmtPad 8 codigo_numerico ++ [digitChar dv])) from by
        simp [hBdef, List.append_assoc]]
    exact fatia_of_append (by simp [hcl, ham_len, hcn_len, h4, h5, h6]) (by rw [h7])
  have f3543 : fatia (B ++ [digitChar dv]) 35 43 = fmtPad 8 codigo_numerico := by
    rw [show B ++ [digitChar dv] = (code ++ am ++ cnpj ++ fmtPad 2 modelo ++
      fmtPad 3 serie ++ fmtPad 9 numero ++ natRepr tipo_emissao) ++
      (fmtPad 8 codigo_numerico ++ [digitChar dv]) from by
        simp [hBdef, List.append_assoc]]
    exact fatia_of_append (by simp [hcl, ham_len, hcn_len, h4, h5, h6, h7])
      (by rw [h8])
  have f4344 : fatia (B ++ [digitChar dv]) 43 44 = [digitChar dv] := by
    rw [show B ++ [digitChar dv] = B ++ ([digitChar dv] ++ []) from by simp]
    exact fatia_of_append hBlen (by simp)
  have f043 : fatia (B ++ [digitChar dv]) 0 43 = B := fatia_zero_of_len hBlen
  have hvdv : valBEc [digitChar dv] = dv := by
    show 0 * 10 + digitVal (digitChar dv) = dv
    rw [digitVal_digitChar hdv9]
    omega
  have hval : validar_chave_acesso (B ++ [digitChar dv]) = .ok
      { chave := B ++ [digitChar dv], uf := uf, ano_mes := am, cnpj := cnpj,
        modelo := modelo,
        tipo_documento :=
          if modelo = 55 then str "NF-e" else
          if modelo = 65 then str "NFC-e" else
          if modelo = 57 then str "CT-e" else
          if modelo = 58 then str "MDF-e" else
          if modelo = 59 then str "CF-e SAT" else str "Desconhecido",
        serie := serie, numero := numero, tipo_emissao := tipo_emissao,
        codigo_numerico := codigo_numerico, dv := dv } := by
    unfold validar_chave_acesso
    rw [filtrarDigitos_of_all hkdig]
    rw [if_neg (by rw [hklen]; omega)]
    rw [parse_fatia hkdig hklen (by norm_num) (by norm_num), f02,
      parse_fatia hkdig hklen (show (20:Nat) < 22 by norm_num) (by norm_num), f2022,
      parse_fatia hkdig hklen (show (22:Nat) < 25 by norm_num) (by norm_num), f2225,
      parse_fatia hkdig hklen (show (25:Nat) < 34 by norm_num) (by norm_num), f2534,
      parse_fatia hkdig hklen (show (34:Nat) < 35 by norm_num) (by norm_num), f3435,
      parse_fatia hkdig hklen (show (35:Nat) < 43 by norm_num) (by norm_num), f3543,
      parse_fatia hkdig hklen (show (43:Nat) < 44 by norm_num) (by norm_num), f4344,
      f26, f620, f043]
    simp only [hvdv]
    rw [if_neg (by omega), hsig]
    simp [valBEc_fmtPad, valBEc_natRepr]
  exact ⟨B ++ [digitChar dv],
    { chave := B ++ [digitChar dv], uf := uf, ano_mes := am, cnpj := cnpj,
      modelo := modelo,
      tipo_documento :=
        if modelo = 55 then str "NF-e" else
        if modelo = 65 then str "NFC-e" else
        if modelo = 57 then str "CT-e" else
        if modelo = 58 then str "MDF-e" else
        if modelo = 59 then str "CF-e SAT" else str "Desconhecido",
      serie := serie, numero := numero, tipo_emissao := tipo_emissao,
      codigo_numerico := codigo_numerico, dv := dv },
    hger, hval, rfl, rfl, rfl, rfl, rfl, rfl, rfl, rfl,
    by rw [List.take_left' hBlen], rfl⟩

/-- Witness for C2 at the spec's end-to-end scenario fields (region `SP`,
taxpayer id `15266912000187`, model 55, series 1). -/
theorem claim_C2_witness :
    ∃ k info,
      gerar_chave_acesso (str "SP") (str "2406") (str "15266912000187")
        55 1 660047 1 67429900 = .ok k ∧
      validar_chave_acesso k = .ok info ∧
      info.uf = str "SP" ∧ info.ano_mes = str "2406" ∧ info.cnpj = str "15266912000187" ∧
      info.modelo = 55 ∧ info.serie = 1 ∧ info.numero = 660047 ∧ info.tipo_emissao = 1 ∧
      info.codigo_numerico = 67429900 ∧
      info.dv = calcular_dv_mod11 (k.take 43) ∧ info.chave = k :=
  claim_C2_roundtrip (str "SP") (str "2406") (str "15266912000187") (str "35")
    55 1 660047 1 67429900 (by decide) (by decide) (by decide) (by decide) (by decide)
    (by norm_num) (by norm_num) (by norm_num) (by norm_num) (by norm_num)

/-! ### Which single-digit corruptions are detectable (C3) -/

theorem valBEc_singleton (c : Char) : valBEc [c] = digitVal c := by
  show 0 * 10 + digitVal c = digitVal c
  omega

theorem digitVal_inj {c c' : Char} (hc : c.isDigit = true) (hc' : c'.isDigit = true)
    (h : digitVal c = digitVal c') : c = c' := by
  rw [← digitChar_digitVal hc, h, digitChar_digitVal hc']

theorem resto_lt (b : List Char) : resto_mod11 b < 11 := by
  unfold resto_mod11
  exact Nat.mod_lt _ (by norm_num)

theorem calcular_eq_resto (b : List Char) :
    calcular_dv_mod11 b =
      if resto_mod11 b = 0 ∨ resto_mod11 b = 1 then 0 else 11 - resto_mod11 b := rfl

theorem specSomaFrom_append (u v : List Nat) (i : Nat) :
    specSomaFrom (u ++ v) i = specSomaFrom u i + specSomaFrom v (i + u.length) := by
  induction u generalizing i with
  | nil => simp [specSomaFrom]
  | cons d u ih =>
    have h : i + 1 + u.length = i + (u.length + 1) := by omega
    simp only [List.cons_append, specSomaFrom, List.append_eq, ih (i + 1), h,
      List.length_cons, Nat.add_assoc]

theorem specWeight_bounds (i : Nat) : 2 ≤ specWeight i ∧ specWeight i ≤ 9 := by
  have h : i % 8 < 8 := Nat.mod_lt _ (by norm_num)
  unfold specWeight
  set j := i % 8 with hj
  interval_cases j <;> simp

theorem dvSoma_decomp (x y : List Char) (c : Char)
    (hd : ∀ ch ∈ x ++ [c] ++ y, ch.isDigit = true) :
    dvSomaAux (x ++ [c] ++ y).reverse 0 =
      specSomaFrom (y.reverse.map digitVal) 0 + digitVal c * specWeight y.length +
      specSomaFrom (x.reverse.map digitVal) (y.length + 1) := by
  have hrev : (x ++ [c] ++ y).reverse = y.reverse ++ ([c] ++ x.reverse) := by
    simp
  have hdr : ∀ ch ∈ y.reverse ++ ([c] ++ x.reverse), ch.isDigit = true := by
    intro ch hch
    apply hd
    simp only [List.mem_append, List.mem_reverse, List.mem_singleton] at hch ⊢
    tauto
  rw [hrev, dvSomaAux_eq_specSomaFrom _ hdr 0, List.map_append, specSomaFrom_append,
    List.singleton_append, List.map_cons]
  simp only [List.length_map, List.length_reverse, Nat.zero_add, specSomaFrom]
  ring

theorem resto_ne_of_flip {x y : List Char} {c c' : Char}
    (hd : ∀ ch ∈ x ++ [c] ++ y, ch.isDigit = true)
    (hd' : ∀ ch ∈ x ++ [c'] ++ y, ch.isDigit = true)
    (hne : c' ≠ c) :
    resto_mod11 (x ++ [c] ++ y) ≠ resto_mod11 (x ++ [c'] ++ y) := by
  have hc : c.isDigit = true := hd c (by simp)
  have hc' : c'.isDigit = true := hd' c' (by simp)
  intro heq
  unfold resto_mod11 at heq
  rw [dvSoma_decomp x y c hd, dvSoma_decomp x y c' hd'] at heq
  have hmod : Nat.ModEq 11 (digitVal c * specWeight y.length)
      (digitVal c' * specWeight y.length) :=
    ((Nat.ModEq.add_right_cancel' _ heq).add_left_cancel' _)
  have hvne : digitVal c' ≠ digitVal c := fun h => hne (digitVal_inj hc' hc h)
  have hclt := digitVal_lt_ten hc
  have hclt' := digitVal_lt_ten hc'
  have hwb := specWeight_bounds y.length
  haveI : Fact (Nat.Prime 11) := ⟨by norm_num⟩
  have hmodz : (digitVal c : ZMod 11) * specWeight y.length =
      (digitVal c' : ZMod 11) * specWeight y.length := by
    have h := (ZMod.natCast_eq_natCast_iff _ _ _).mpr hmod
    push_cast at h
    exact h
  have hw0 : (specWeight y.length : ZMod 11) ≠ 0 := by
    intro h0
    rw [ZMod.natCast_zmod_eq_zero_iff_dvd] at h0
    have := Nat.le_of_dvd (by omega) h0
    omega
  have hcc : (digitVal c : ZMod 11) = (digitVal c' : ZMod 11) :=
    mul_right_cancel₀ hw0 hmodz
  have hfin : Nat.ModEq 11 (digitVal c) (digitVal c') :=
    (ZMod.natCast_eq_natCast_iff _ _ _).mp hcc
  unfold Nat.ModEq at hfin
  omega

/-- C3 (corrected): not every single-digit corruption of a valid access key is
rejected.  Amended claim: if a valid key with one digit replaced (position
`x.length`, old digit `c`, new digit `c'`) still validates, then the flipped
position lies in the 43-digit body (not the check-digit slot) and the flip
moved the weighted mod-11 remainder of the body between 0 and 1 — the one
collision of the check-digit map; every other single-digit change, and every
change of the check digit itself, makes validation fail. -/
theorem claim_C3_amended (x y : List Char) (c c' : Char)
    (hdig : ∀ ch ∈ x ++ [c] ++ y, ch.isDigit = true)
    (hcd' : c'.isDigit = true) (hne : c' ≠ c)
    (hlen : (x ++ [c] ++ y).length = 44)
    (hvalid : (validar_chave_acesso (x ++ [c] ++ y)).isOk = true)
    (hvalid' : (validar_chave_acesso (x ++ [c'] ++ y)).isOk = true) :
    y ≠ [] ∧
      ((resto_mod11 ((x ++ [c] ++ y).take 43) = 0 ∧
        resto_mod11 ((x ++ [c'] ++ y).take 43) = 1) ∨
       (resto_mod11 ((x ++ [c] ++ y).take 43) = 1 ∧
        resto_mod11 ((x ++ [c'] ++ y).take 43) = 0)) := by
  have hc : c.isDigit = true := hdig c (by simp)
  have hdig' : ∀ ch ∈ x ++ [c'] ++ y, ch.isDigit = true := by
    intro ch hch
    rcases List.mem_append.mp hch with h | h
    · rcases List.mem_append.mp h with h | h
      · exact hdig ch (by simp [h])
      · rw [List.mem_singleton] at h
        subst h
        exact hcd'
    · exact hdig ch (by simp [h])
  have h1 := (validar_isOk_iff _).mp hvalid
  rw [filtrarDigitos_of_all hdig] at h1
  have h2 := (validar_isOk_iff _).mp hvalid'
  rw [filtrarDigitos_of_all hdig'] at h2
  obtain ⟨-, hdv1, -⟩ := h1
  obtain ⟨-, hdv2, -⟩ := h2
  by_cases hy : y = []
  · exfalso
    subst hy
    simp only [List.append_nil] at hdv1 hdv2 hlen
    have hx43 : x.length = 43 := by
      simp only [List.length_append, List.length_singleton] at hlen
      omega
    have hfc : fatia (x ++ [c]) 43 44 = [c] := by
      rw [show x ++ [c] = x ++ ([c] ++ []) from by simp]
      exact fatia_of_append hx43 (by norm_num)
    have hfc' : fatia (x ++ [c']) 43 44 = [c'] := by
      rw [show x ++ [c'] = x ++ ([c'] ++ []) from by simp]
      exact fatia_of_append hx43 (by norm_num)
    rw [List.take_left' hx43, hfc, valBEc_singleton] at hdv1
    rw [List.take_left' hx43, hfc', valBEc_singleton] at hdv2
    exact hne (digitVal_inj hcd' hc (by omega))
  · refine ⟨hy, ?_⟩
    have hyd : y.dropLast ++ [y.getLast hy] = y := List.dropLast_append_getLast hy
    have hkb : x ++ [c] ++ y = (x ++ [c] ++ y.dropLast) ++ [y.getLast hy] := by
      conv_lhs => rw [← hyd]
      simp [List.append_assoc]
    have hkb' : x ++ [c'] ++ y = (x ++ [c'] ++ y.dropLast) ++ [y.getLast hy] := by
      conv_lhs => rw [← hyd]
      simp [List.append_assoc]
    have hB43 : (x ++ [c] ++ y.dropLast).length = 43 := by
      have hyl : y.dropLast.length = y.length - 1 := List.length_dropLast y
      have hy1 : 1 ≤ y.length := List.length_pos.mpr hy
      simp only [List.length_append, List.length_singleton] at hlen ⊢
      omega
    have hB43' : (x ++ [c'] ++ y.dropLast).length = 43 := by
      have hyl : y.dropLast.length = y.length - 1 := List.length_dropLast y
      have hy1 : 1 ≤ y.length := List.length_pos.mpr hy
      simp only [List.length_append, List.length_singleton] at hlen ⊢
      omega
    have hBd : ∀ ch ∈ x ++ [c] ++ y.dropLast, ch.isDigit = true := by
      intro ch hch
      rcases List.mem_append.mp hch with h | h
      · rcases List.mem_append.mp h with hx | hcc
        · exact hdig ch (by simp [hx])
        · rw [List.mem_singleton] at hcc
          subst hcc
          exact hc
      · exact hdig ch (by
          simp only [List.mem_append]
          exact Or.inr ((List.dropLast_sublist y).subset h))
    have hBd' : ∀ ch ∈ x ++ [c'] ++ y.dropLast, ch.isDigit = true := by
      intro ch hch
      rcases List.mem_append.mp hch with h | h
      · rcases List.mem_append.mp h with hx | hcc
        · exact hdig' ch (by simp [hx])
        · rw [List.mem_singleton] at hcc
          subst hcc
          exact hcd'
      · exact hdig' ch (by
          simp only [List.mem_append]
          exact Or.inr ((List.dropLast_sublist y).subset h))
    rw [hkb, List.take_left' hB43] at hdv1 ⊢
    rw [hkb', List.take_left' hB43'] at hdv2 ⊢
    rw [show fatia ((x ++ [c] ++ y.dropLast) ++ [y.getLast hy]) 43 44 = [y.getLast hy] from by
        rw [show (x ++ [c] ++ y.dropLast) ++ [y.getLast hy] =
          (x ++ [c] ++ y.dropLast) ++ ([y.getLast hy] ++ []) from by simp]
        exact fatia_of_append hB43 (by norm_num),
      valBEc_singleton] at hdv1
    rw [show fatia ((x ++ [c'] ++ y.dropLast) ++ [y.getLast hy]) 43 44 = [y.getLast hy] from by
        rw [show (x ++ [c'] ++ y.dropLast) ++ [y.getLast hy] =
          (x ++ [c'] ++ y.dropLast) ++ ([y.getLast hy] ++ []) from by simp]
        exact fatia_of_append hB43' (by norm_num),
      valBEc_singleton] at hdv2
    have heqc : calcular_dv_mod11 (x ++ [c] ++ y.dropLast) =
        calcular_dv_mod11 (x ++ [c'] ++ y.dropLast) := by omega
    have hrne : resto_mod11 (x ++ [c] ++ y.dropLast) ≠
        resto_mod11 (x ++ [c'] ++ y.dropLast) := resto_ne_of_flip hBd hBd' hne
    have hr := resto_lt (x ++ [c] ++ y.dropLast)
    have hr' := resto_lt (x ++ [c'] ++ y.dropLast)
    rw [calcular_eq_resto, calcular_eq_resto] at heqc
    split_ifs at heqc <;> omega

/-- C3 counterexample: a valid access key whose digit at position 42 is
changed from 0 to 6 (weight 2, so the weighted remainder moves from 0 to 1)
still validates — single-digit corruption is not always detected. -/
theorem claim_C3_counterexample :
    (validar_chave_acesso (str "35240615266912000187550010006600471100000100")).isOk
        = true ∧
      str "35240615266912000187550010006600471100000160" =
        (str "35240615266912000187550010006600471100000100").set 42 '6' ∧
      (str "35240615266912000187550010006600471100000100").getD 42 ' ' ≠ '6' ∧
      (validar_chave_acesso (str "35240615266912000187550010006600471100000160")).isOk
        = true := by
  decide

/-- Witness for the amended C3 at the concrete undetected flip. -/
theorem claim_C3_witness :
    ['0'] ≠ ([] : List Char) ∧
      ((resto_mod11 ((str "352406152669120001875500100066004711000001" ++ ['0'] ++
          ['0']).take 43) = 0 ∧
        resto_mod11 ((str "352406152669120001875500100066004711000001" ++ ['6'] ++
          ['0']).take 43) = 1) ∨
       (resto_mod11 ((str "352406152669120001875500100066004711000001" ++ ['0'] ++
          ['0']).take 43) = 1 ∧
        resto_mod11 ((str "352406152669120001875500100066004711000001" ++ ['6'] ++
          ['0']).take 43) = 0)) :=
  claim_C3_amended (str "352406152669120001875500100066004711000001") ['0'] '0' '6'
    (by decide) (by decide) (by decide) (by decide) (by decide) (by decide)

/-! ## src/web/src/sefaz/inutilizacao.rs -/

/-- `DadosInutilizacao` (inutilizacao.rs:11-26). -/
structure DadosInutilizacao where
  ano : Nat
  cnpj : List Char
  modelo : Nat
  serie : Nat
  numero_inicial : Nat
  numero_final : Nat
  justificativa : List Char

/-- `DadosInutilizacao::validar` (inutilizacao.rs:49-104): pushes one error
message per violated rule (messages abbreviated) and fails iff the list is
nonempty. -/
def DadosInutilizacao.validar (d : DadosInutilizacao) : Except (List (List Char)) Unit :=
  let erros :=
    (if d.ano < 2006 ∨ d.ano > 2099 then [str "Ano invalido"] else []) ++
    (if d.cnpj.length ≠ 14 ∨ ¬(d.cnpj.all Char.isDigit = true) then
      [str "CNPJ invalido"] else []) ++
    (if d.modelo ≠ 55 ∧ d.modelo ≠ 65 then [str "Modelo invalido"] else []) ++
    (if d.serie > 999 then [str "Serie invalida"] else []) ++
    (if d.numero_inicial > d.numero_final then
      [str "Numero inicial maior que o final"] else []) ++
    (if d.numero_inicial = 0 then [str "Numero inicial nao pode ser zero"] else []) ++
    (if d.justificativa.length < 15 then [str "Justificativa muito curta"] else []) ++
    (if d.justificativa.length > 255 then [str "Justificativa muito longa"] else [])
  if erros = [] then .ok () else .error erros

/-! ## src/web/src/sefaz/manifesto.rs -/

/-- `TipoManifestacao` (manifesto.rs:14-28). -/
inductive TipoManifestacao where
  | CienciaOperacao
  | ConfirmacaoOperacao
  | DesconhecimentoOperacao
  | OperacaoNaoRealizada
deriving DecidableEq

/-- `TipoManifestacao::codigo` (manifesto.rs:42-44, the `repr` values). -/
def TipoManifestacao.codigo : TipoManifestacao → Nat
  | .CienciaOperacao => 210210
  | .ConfirmacaoOperacao => 210200
  | .DesconhecimentoOperacao => 210220
  | .OperacaoNaoRealizada => 210240

/-- `TipoManifestacao::justificativa_obrigatoria` (manifesto.rs:47-49). -/
def TipoManifestacao.justificativaObrigatoria (t : TipoManifestacao) : Bool :=
  t = .OperacaoNaoRealizada

/-- `DadosManifestacao` (manifesto.rs:65-74). -/
structure DadosManifestacao where
  chave_acesso : List Char
  cnpj_destinatario : List Char
  tipo_manifestacao : TipoManifestacao
  justificativa : Option (List Char)

/-- `DadosManifestacao::validar` (manifesto.rs:95-145). -/
def DadosManifestacao.validar (d : DadosManifestacao) : Except (List (List Char)) Unit :=
  let erros :=
    (if d.chave_acesso.length ≠ 44 then [str "Chave de acesso invalida"] else []) ++
    (if ¬(d.chave_acesso.all Char.isDigit = true) then
      [str "Chave de acesso deve conter apenas numeros"] else []) ++
    (if d.cnpj_destinatario.length ≠ 14 then [str "CNPJ invalido"] else []) ++
    (if d.tipo_manifestacao.justificativaObrigatoria then
      match d.justificativa with
      | none => [str "Justificativa e obrigatoria"]
      | some j =>
        if j.length < 15 then [str "Justificativa muito curta"]
        else if j.length > 255 then [str "Justificativa muito longa"]
        else []
     else [])
  if erros = [] then .ok () else .error erros

/-! ## src/web/src/graphql/resolvers.rs — pre-submission validation

The justification-length gate for the cancellation and correction-letter
operations lives in the GraphQL resolvers, before the SEFAZ client is invoked
(and therefore before any event XML is built or any network call is made). -/

/-- The validation prefix of the `cancelar_nfe` resolver (resolvers.rs:267-275):
validate the access key, then require a justification of at least 15
characters. -/
def cancelar_nfe_prevalidacao (chave justificativa : List Char) :
    Except (List Char) Unit :=
  match validar_chave_acesso chave with
  | .error e => .error e
  | .ok _ =>
    if justificativa.length < 15 then
      .error (str "Justificativa deve ter no minimo 15 caracteres")
    else .ok ()

/-- The validation prefix of the `carta_correcao` resolver
(resolvers.rs:309-317). -/
def carta_correcao_prevalidacao (chave correcao : List Char) :
    Except (List Char) Unit :=
  match validar_chave_acesso chave with
  | .error e => .error e
  | .ok _ =>
    if correcao.length < 15 then
      .error (str "Correcao deve ter no minimo 15 caracteres")
    else .ok ()

/-- C5: for each justification-carrying operation — range invalidation,
the not-realized recipient-manifest kind, cancellation and correction letter —
the pre-submission validation (run before any XML is built or network call is
made) rejects a 14-character justification and accepts a 15-character one,
provided the operation's other fields are valid. -/
theorem claim_C5_justification_boundary :
    (∀ d : DadosInutilizacao,
      2006 ≤ d.ano → d.ano ≤ 2099 → d.cnpj.length = 14 →
      d.cnpj.all Char.isDigit = true → (d.modelo = 55 ∨ d.modelo = 65) →
      d.serie ≤ 999 → d.numero_inicial ≤ d.numero_final → d.numero_inicial ≠ 0 →
      ((d.justificativa.length = 14 → (d.validar).isOk = false) ∧
       (d.justificativa.length = 15 → (d.validar).isOk = true))) ∧
    (∀ d : DadosManifestacao, ∀ j,
      d.tipo_manifestacao = .OperacaoNaoRealizada →
      d.chave_acesso.length = 44 → d.chave_acesso.all Char.isDigit = true →
      d.cnpj_destinatario.length = 14 → d.justificativa = some j →
      ((j.length = 14 → (d.validar).isOk = false) ∧
       (j.length = 15 → (d.validar).isOk = true))) ∧
    (∀ chave justificativa : List Char,
      (validar_chave_acesso chave).isOk = true →
      ((justificativa.length = 14 →
        (cancelar_nfe_prevalidacao chave justificativa).isOk = false) ∧
       (justificativa.length = 15 →
        (cancelar_nfe_prevalidacao chave justificativa).isOk = true))) ∧
    (∀ chave correcao : List Char,
      (validar_chave_acesso chave).isOk = true →
      ((correcao.length = 14 →
        (carta_correcao_prevalidacao chave correcao).isOk = false) ∧
       (correcao.length = 15 →
        (carta_correcao_prevalidacao chave correcao).isOk = true))) := by
  refine ⟨?_, ?_, ?_, ?_⟩
  · intro d h1 h2 h3 h4 h5 h6 h7 h8
    unfold DadosInutilizacao.validar
    rw [if_neg (show ¬(d.ano < 2006 ∨ d.ano > 2099) from by omega),
      if_neg (show ¬(d.cnpj.length ≠ 14 ∨ ¬(d.cnpj.all Char.isDigit = true)) from by
        simp [h3, h4]),
      if_neg (show ¬(d.modelo ≠ 55 ∧ d.modelo ≠ 65) from by omega),
      if_neg (show ¬(d.serie > 999) from by omega),
      if_neg (show ¬(d.numero_inicial > d.numero_final) from by omega),
      if_neg (show ¬(d.numero_inicial = 0) from by omega)]
    constructor
    · intro hj
      rw [if_pos (show d.justificativa.length < 15 from by omega),
        if_neg (show ¬(d.justificativa.length > 255) from by omega)]
      simp [Except.isOk, Except.toBool]
    · intro hj
      rw [if_neg (show ¬(d.justificativa.length < 15) from by omega),
        if_neg (show ¬(d.justificativa.length > 255) from by omega)]
      simp [Except.isOk, Except.toBool]
  · intro d j ht h1 h2 h3 hj
    unfold DadosManifestacao.validar
    rw [if_neg (show ¬(d.chave_acesso.length ≠ 44) from by omega),
      if_neg (show ¬¬(d.chave_acesso.all Char.isDigit = true) from by simp [h2]),
      if_neg (show ¬(d.cnpj_destinatario.length ≠ 14) from by omega), hj,
      if_pos (show d.tipo_manifestacao.justificativaObrigatoria = true from by
        rw [ht]; rfl)]
    simp only []
    constructor
    · intro hjl
      rw [if_pos (show j.length < 15 from by omega)]
      simp [Except.isOk, Except.toBool]
    · intro hjl
      rw [if_neg (show ¬(j.length < 15) from by omega),
        if_neg (show ¬(j.length > 255) from by omega)]
      simp [Except.isOk, Except.toBool]
  · intro chave justificativa hv
    cases hva : validar_chave_acesso chave with
    | error e =>
      rw [hva] at hv
      simp [Except.isOk, Except.toBool] at hv
    | ok info =>
      unfold cancelar_nfe_prevalidacao
      rw [hva]
      constructor
      · intro hjl
        rw [if_pos (show justificativa.length < 15 from by omega)]
        simp [Except.isOk, Except.toBool]
      · intro hjl
        rw [if_neg (show ¬(justificativa.length < 15) from by omega)]
        simp [Except.isOk, Except.toBool]
  · intro chave correcao hv
    cases hva : validar_chave_acesso chave with
    | error e =>
      rw [hva] at hv
      simp [Except.isOk, Except.toBool] at hv
    | ok info =>
      unfold carta_correcao_prevalidacao
      rw [hva]
      constructor
      · intro hjl
        rw [if_pos (show correcao.length < 15 from by omega)]
        simp [Except.isOk, Except.toBool]
      · intro hjl
        rw [if_neg (show ¬(correcao.length < 15) from by omega)]
        simp [Except.isOk, Except.toBool]

/-- Witness for C5: the 14/15-character boundary at concrete inputs for all
four operations. -/
theorem claim_C5_witness :
    (DadosInutilizacao.validar
      ⟨2024, str "15266912000187", 55, 1, 1, 10, str "12345678901234"⟩).isOk = false ∧
    (DadosInutilizacao.validar
      ⟨2024, str "15266912000187", 55, 1, 1, 10, str "123456789012345"⟩).isOk = true ∧
    (DadosManifestacao.validar
      ⟨str "35240615266912000187550010006600471100000100", str "15266912000187",
        .OperacaoNaoRealizada, some (str "12345678901234")⟩).isOk = false ∧
    (DadosManifestacao.validar
      ⟨str "35240615266912000187550010006600471100000100", str "15266912000187",
        .OperacaoNaoRealizada, some (str "123456789012345")⟩).isOk = true ∧
    (cancelar_nfe_prevalidacao (str "35240615266912000187550010006600471100000100")
      (str "12345678901234")).isOk = false ∧
    (cancelar_nfe_prevalidacao (str "35240615266912000187550010006600471100000100")
      (str "123456789012345")).isOk = true ∧
    (carta_correcao_prevalidacao (str "35240615266912000187550010006600471100000100")
      (str "12345678901234")).isOk = false ∧
    (carta_correcao_prevalidacao (str "35240615266912000187550010006600471100000100")
      (str "123456789012345")).isOk = true :=
  ⟨(claim_C5_justification_boundary.1 _ (by norm_num) (by norm_num) (by decide)
      (by decide) (Or.inl rfl) (by norm_num) (by norm_num) (by norm_num)).1 (by decide),
   (claim_C5_justification_boundary.1 _ (by norm_num) (by norm_num) (by decide)
      (by decide) (Or.inl rfl) (by norm_num) (by norm_num) (by norm_num)).2 (by decide),
   (claim_C5_justification_boundary.2.1 _ _ rfl (by decide) (by decide) (by decide)
      rfl).1 (by decide),
   (claim_C5_justification_boundary.2.1 _ _ rfl (by decide) (by decide) (by decide)
      rfl).2 (by decide),
   (claim_C5_justification_boundary.2.2.1 _ _ (by decide)).1 (by decide),
   (claim_C5_justification_boundary.2.2.1 _ _ (by decide)).2 (by decide),
   (claim_C5_justification_boundary.2.2.2 _ _ (by decide)).1 (by decide),
   (claim_C5_justification_boundary.2.2.2 _ _ (by decide)).2 (by decide)⟩

/-! ## Substring search (Rust `str::find`) -/

/-- `leadsWith pat l` is true when `pat` is an initial segment of `l`. -/
def leadsWith : List Char → List Char → Bool
  | [], _ => true
  | _ :: _, [] => false
  | p :: ps, h :: hs => p = h && leadsWith ps hs

/-- Index scan behind `findSub`. -/
def findSubAux (pat : List Char) : List Char → Nat → Option Nat
  | [], i => if leadsWith pat [] then some i else none
  | c :: rest, i =>
    if leadsWith pat (c :: rest) then some i else findSubAux pat rest (i + 1)

/-- Rust `hay.find(pat)`: index of the first occurrence of `pat` in `hay`. -/
def findSub (hay pat : List Char) : Option Nat := findSubAux pat hay 0

/-- Rust `hay.contains(pat)`. -/
def containsSub (hay pat : List Char) : Bool := (findSub hay pat).isSome

/-! ## src/web/src/sefaz/webservice.rs — response parsing -/

/-- `extract_xml_value` (webservice.rs:427-434): the content between the first
`<tag>` and the next `</tag>` after it. -/
def extract_xml_value (xml tag : List Char) : Option (List Char) :=
  let start_tag := '<' :: tag ++ ['>']
  let end_tag := '<' :: '/' :: tag ++ ['>']
  match findSub xml start_tag with
  | none => none
  | some start =>
    let value_start := start + start_tag.length
    match findSub (xml.drop value_start) end_tag with
    | none => none
    | some e => some (fatia xml value_start (value_start + e))

/-- `extrair_tag` — the identical private helper repeated in inutilizacao.rs
(191-202), manifesto.rs (245-256) and distribuicao.rs (266-277). -/
def extrair_tag (xml tag : List Char) : Option (List Char) :=
  extract_xml_value xml tag

/-- `StatusServicoResult` (webservice.rs:400-406). -/
structure StatusServicoResult where
  codigo_status : List Char
  motivo : List Char
  data_hora : Option (List Char)
  tempo_medio : Option Nat
  online : Bool
deriving DecidableEq

/-- `AutorizacaoResult` (webservice.rs:409-416). -/
structure AutorizacaoResult where
  sucesso : Bool
  codigo_status : List Char
  motivo : List Char
  chave_acesso : Option (List Char)
  protocolo : Option (List Char)
  xml_autorizado : Option (List Char)
deriving DecidableEq

/-- `EventoResult` (webservice.rs:419-425). -/
structure EventoResult where
  sucesso : Bool
  codigo_status : List Char
  motivo : List Char
  protocolo : Option (List Char)
  data_evento : Option (List Char)
deriving DecidableEq

/-- `ResultadoConsulta` (consulta.rs:27-41).  The `f64` field `valor_total` is
set to `None` by every embedded operation and is omitted. -/
structure ResultadoConsulta where
  sucesso : Bool
  codigo_status : Option (List Char)
  motivo : Option (List Char)
  chave_acesso : Option (List Char)
  situacao : Option (List Char)
  data_autorizacao : Option (List Char)
  protocolo : Option (List Char)
  numero : Option Nat
  serie : Option Nat
  emit_cnpj : Option (List Char)
  emit_razao_social : Option (List Char)
  url_consulta : Option (List Char)
deriving DecidableEq

/-- `SefazClient::parsear_status_servico` (webservice.rs:319-332). -/
def parsear_status_servico (xml : List Char) : Except (List Char) StatusServicoResult :=
  let c_stat := (extract_xml_value xml (str "cStat")).getD []
  let x_motivo := (extract_xml_value xml (str "xMotivo")).getD []
  let dh_recbto := extract_xml_value xml (str "dhRecbto")
  let t_med := (extract_xml_value xml (str "tMed")).bind parseU32
  .ok { codigo_status := c_stat, motivo := x_motivo, data_hora := dh_recbto,
        tempo_medio := t_med, online := decide (c_stat = str "107") }

/-- `SefazClient::parsear_consulta` (webservice.rs:334-363). -/
def parsear_consulta (xml : List Char) : Except (List Char) ResultadoConsulta :=
  let c_stat := (extract_xml_value xml (str "cStat")).getD []
  let x_motivo := (extract_xml_value xml (str "xMotivo")).getD []
  let ch_nfe := extract_xml_value xml (str "chNFe")
  let n_prot := extract_xml_value xml (str "nProt")
  let dh_recbto := extract_xml_value xml (str "dhRecbto")
  let situacao :=
    if c_stat = str "100" then some (str "Autorizada")
    else if c_stat = str "101" then some (str "Cancelada")
    else if c_stat = str "110" then some (str "Denegada")
    else some x_motivo
  .ok { sucesso := decide (c_stat = str "100") || decide (c_stat = str "101"),
        codigo_status := some c_stat, motivo := some x_motivo,
        chave_acesso := ch_nfe, situacao := situacao, data_autorizacao := dh_recbto,
        protocolo := n_prot, numero := none, serie := none, emit_cnpj := none,
        emit_razao_social := none, url_consulta := none }

/-- `SefazClient::parsear_autorizacao` (webservice.rs:365-379). -/
def parsear_autorizacao (xml : List Char) : Except (List Char) AutorizacaoResult :=
  let c_stat := (extract_xml_value xml (str "cStat")).getD []
  let x_motivo := (extract_xml_value xml (str "xMotivo")).getD []
  let ch_nfe := extract_xml_value xml (str "chNFe")
  let n_prot := extract_xml_value xml (str "nProt")
  .ok { sucesso := decide (c_stat = str "100") || decide (c_stat = str "104"),
        codigo_status := c_stat, motivo := x_motivo, chave_acesso := ch_nfe,
        protocolo := n_prot,
        xml_autorizado := if c_stat = str "100" then some xml else none }

/-- `SefazClient::parsear_evento` (webservice.rs:381-394). -/
def parsear_evento (xml : List Char) : Except (List Char) EventoResult :=
  let c_stat := (extract_xml_value xml (str "cStat")).getD []
  let x_motivo := (extract_xml_value xml (str "xMotivo")).getD []
  let n_prot := extract_xml_value xml (str "nProt")
  let dh_reg := extract_xml_value xml (str "dhRegEvento")
  .ok { sucesso := decide (c_stat = str "135") || decide (c_stat = str "136"),
        codigo_status := c_stat, motivo := x_motivo, protocolo := n_prot,
        data_evento := dh_reg }

/-- `extrair_atributo` (inutilizacao.rs:204-220). -/
def extrair_atributo (xml tag attr : List Char) : Option (List Char) :=
  match findSub xml ('<' :: tag) with
  | none => none
  | some start =>
    let tag_content := xml.drop start
    match findSub tag_content ['>'] with
    | none => none
    | some e =>
      let attr_section := tag_content.take e
      let attr_pattern := attr ++ ['=', '\"']
      match findSub attr_section attr_pattern with
      | none => none
      | some attr_start =>
        let value_start := attr_start + attr_pattern.length
        match findSub (attr_section.drop value_start) ['\"'] with
        | none => none
        | some value_end => some (fatia attr_section value_start (value_start + value_end))

/-- `ResultadoInutilizacao` (inutilizacao.rs:30-45). -/
structure ResultadoInutilizacao where
  sucesso : Bool
  id_inutilizacao : List Char
  codigo_status : Nat
  descricao_status : List Char
  protocolo : Option (List Char)
  data_processamento : Option (List Char)
  xml_assinado : Option (List Char)
deriving DecidableEq

/-- `parsear_resposta_inutilizacao` (inutilizacao.rs:156-189).  Status 102 =
range invalidation homologated. -/
def parsear_resposta_inutilizacao (xml : List Char) : ResultadoInutilizacao :=
  let codigo_status := ((extrair_tag xml (str "cStat")).bind parseU16).getD 0
  let descricao := (extrair_tag xml (str "xMotivo")).getD (str "Erro desconhecido")
  let protocolo := extrair_tag xml (str "nProt")
  let data := extrair_tag xml (str "dhRecbto")
  let id := ((extrair_tag xml (str "Id")).orElse
    (fun _ => extrair_atributo xml (str "infInut") (str "Id"))).getD []
  { sucesso := decide (codigo_status = 102), id_inutilizacao := id,
    codigo_status := codigo_status, descricao_status := descricao,
    protocolo := protocolo, data_processamento := data, xml_assinado := none }

/-! ## src/web/src/sefaz/distribuicao.rs -/

/-- `TipoConsultaDistribuicao` (distribuicao.rs:10-17). -/
inductive TipoConsultaDistribuicao where
  | ConsultaNsu
  | ConsultaChave
  | DistribuicaoNsu
deriving DecidableEq

/-- `DadosConsultaDistribuicao` (distribuicao.rs:21-32). -/
structure DadosConsultaDistribuicao where
  documento : List Char
  tipo_consulta : TipoConsultaDistribuicao
  nsu : Option (List Char)
  ultimo_nsu : Option (List Char)
  chave_acesso : Option (List Char)

/-- `TipoDocumentoDistribuido` (distribuicao.rs:74-83). -/
inductive TipoDocumentoDistribuido where
  | ResumoNfe
  | NfeCompleta
  | ResumoEvento
  | EventoCompleto
deriving DecidableEq

/-- `DocumentoDistribuido` (distribuicao.rs:53-70).  The `f32` field
`valor_total` is always `None` in the embedded code path and is omitted. -/
structure DocumentoDistribuido where
  nsu : List Char
  tipo : TipoDocumentoDistribuido
  schema : List Char
  conteudo : List Char
  chave_acesso : Option (List Char)
  cnpj_emitente : Option (List Char)
  data_emissao : Option (List Char)
deriving DecidableEq

/-- `ResultadoDistribuicao` (distribuicao.rs:36-49). -/
structure ResultadoDistribuicao where
  sucesso : Bool
  codigo_status : Nat
  descricao_status : List Char
  ultimo_nsu : Option (List Char)
  max_nsu : Option (List Char)
  documentos : List DocumentoDistribuido
deriving DecidableEq

/-- `DadosConsultaDistribuicao::validar` (distribuicao.rs:87-134). -/
def DadosConsultaDistribuicao.validar (d : DadosConsultaDistribuicao) :
    Except (List (List Char)) Unit :=
  let erros :=
    (if d.documento.length ≠ 11 ∧ d.documento.length ≠ 14 then
      [str "Documento invalido"] else []) ++
    (if ¬(d.documento.all Char.isDigit = true) then
      [str "Documento deve conter apenas numeros"] else []) ++
    (match d.tipo_consulta with
     | .ConsultaNsu =>
       if d.nsu.isNone then [str "NSU e obrigatorio para consulta por NSU"] else []
     | .ConsultaChave =>
       match d.chave_acesso with
       | none => [str "Chave de acesso e obrigatoria para consulta por chave"]
       | some chave =>
         if chave.length ≠ 44 then [str "Chave de acesso invalida"] else []
     | .DistribuicaoNsu => [])
  if erros = [] then .ok () else .error erros

/-- `extrair_atributo_str` (distribuicao.rs:279-288). -/
def extrair_atributo_str (xml attr : List Char) : Option (List Char) :=
  let pattern := attr ++ ['=', '\"']
  match findSub xml pattern with
  | none => none
  | some s =>
    let s2 := s + pattern.length
    match findSub (xml.drop s2) ['\"'] with
    | none => none
    | some e => some (fatia xml s2 (s2 + e))

/-- `extrair_conteudo_tag` (distribuicao.rs:290-299). -/
def extrair_conteudo_tag (xml tag : List Char) : Option (List Char) :=
  match findSub xml ['>'] with
  | none => none
  | some s =>
    let s2 := s + 1
    match findSub (xml.drop s2) ('<' :: '/' :: tag ++ ['>']) with
    | none => none
    | some e => some (fatia xml s2 (s2 + e))

/-- Body of one `extrair_documentos` loop iteration (distribuicao.rs:222-255):
classify and collect one `<docZip ...>...</docZip>` block. -/
def docZipDe (doc_xml : List Char) : DocumentoDistribuido :=
  let nsu := (extrair_atributo_str doc_xml (str "NSU")).getD []
  let schema := (extrair_atributo_str doc_xml (str "schema")).getD []
  let tipo :=
    if containsSub schema (str "resNFe") then TipoDocumentoDistribuido.ResumoNfe
    else if containsSub schema (str "procNFe") ∨ containsSub schema (str "nfeProc") then
      TipoDocumentoDistribuido.NfeCompleta
    else if containsSub schema (str "resEvento") then TipoDocumentoDistribuido.ResumoEvento
    else TipoDocumentoDistribuido.EventoCompleto
  let conteudo := (extrair_conteudo_tag doc_xml (str "docZip")).getD []
  { nsu := nsu, tipo := tipo, schema := schema, conteudo := conteudo,
    chave_acesso := none, cnpj_emitente := none, data_emissao := none }

/-- The `extrair_documentos` scan loop (distribuicao.rs:213-264), recursing on
the suffix of the response that follows the block just consumed. -/
def extrair_documentos_go : List Char → List DocumentoDistribuido
  | [] => []
  | c :: rest =>
    match findSub (c :: rest) (str "<docZip") with
    | none => []
    | some s =>
      match findSub ((c :: rest).drop s) (str "</docZip>") with
      | none => []
      | some e =>
        docZipDe (fatia (c :: rest) s (s + e + 9)) ::
          extrair_documentos_go ((c :: rest).drop (s + e + 9))
termination_by l => l.length
decreasing_by
  simp only [List.length_drop, List.length_cons]
  omega

/-- `extrair_documentos` (distribuicao.rs:213-264). -/
def extrair_documentos (xml : List Char) : List DocumentoDistribuido :=
  extrair_documentos_go xml

/-- `parsear_resposta_distribuicao` (distribuicao.rs:186-211).  Status 137 =
no documents found, 138 = documents found. -/
def parsear_resposta_distribuicao (xml : List Char) : ResultadoDistribuicao :=
  let codigo_status := ((extrair_tag xml (str "cStat")).bind parseU16).getD 0
  let descricao := (extrair_tag xml (str "xMotivo")).getD (str "Erro desconhecido")
  let ultimo_nsu := extrair_tag xml (str "ultNSU")
  let max_nsu := extrair_tag xml (str "maxNSU")
  let documentos := extrair_documentos xml
  { sucesso := decide (codigo_status = 137) || decide (codigo_status = 138),
    codigo_status := codigo_status, descricao_status := descricao,
    ultimo_nsu := ultimo_nsu, max_nsu := max_nsu, documentos := documentos }

/-- C6: each response parser's success flag is true exactly for its
operation's documented status codes — status check: 107; protocol lookup: 100
or 101; batch authorization: 100 or 104; cancellation/correction events: 135
or 136; range invalidation: 102; distribution query: 137 or 138 — and the
result carries the reason text extracted from the response (`xMotivo`). -/
theorem claim_C6_status_code_table (xml : List Char) :
    (∀ r, parsear_status_servico xml = .ok r →
      ((r.online = true ↔ (extract_xml_value xml (str "cStat")).getD [] = str "107") ∧
       ∀ m, extract_xml_value xml (str "xMotivo") = some m → r.motivo = m)) ∧
    (∀ r, parsear_consulta xml = .ok r →
      ((r.sucesso = true ↔
        ((extract_xml_value xml (str "cStat")).getD [] = str "100" ∨
         (extract_xml_value xml (str "cStat")).getD [] = str "101")) ∧
       ∀ m, extract_xml_value xml (str "xMotivo") = some m → r.motivo = some m)) ∧
    (∀ r, parsear_autorizacao xml = .ok r →
      ((r.sucesso = true ↔
        ((extract_xml_value xml (str "cStat")).getD [] = str "100" ∨
         (extract_xml_value xml (str "cStat")).getD [] = str "104")) ∧
       ∀ m, extract_xml_value xml (str "xMotivo") = some m → r.motivo = m)) ∧
    (∀ r, parsear_evento xml = .ok r →
      ((r.sucesso = true ↔
        ((extract_xml_value xml (str "cStat")).getD [] = str "135" ∨
         (extract_xml_value xml (str "cStat")).getD [] = str "136")) ∧
       ∀ m, extract_xml_value xml (str "xMotivo") = some m → r.motivo = m)) ∧
    (((parsear_resposta_inutilizacao xml).sucesso = true ↔
       ((extrair_tag xml (str "cStat")).bind parseU16).getD 0 = 102) ∧
     ∀ m, extrair_tag xml (str "xMotivo") = some m →
       (parsear_resposta_inutilizacao xml).descricao_status = m) ∧
    (((parsear_resposta_distribuicao xml).sucesso = true ↔
       (((extrair_tag xml (str "cStat")).bind parseU16).getD 0 = 137 ∨
        ((extrair_tag xml (str "cStat")).bind parseU16).getD 0 = 138)) ∧
     ∀ m, extrair_tag xml (str "xMotivo") = some m →
       (parsear_resposta_distribuicao xml).descricao_status = m) := by
  refine ⟨?_, ?_, ?_, ?_, ⟨?_, ?_⟩, ⟨?_, ?_⟩⟩
  · intro r h
    unfold parsear_status_servico at h
    rw [Except.ok.injEq] at h
    subst h
    refine ⟨by simp, ?_⟩
    intro m hm
    simp [hm]
  · intro r h
    unfold parsear_consulta at h
    rw [Except.ok.injEq] at h
    subst h
    refine ⟨by simp [Bool.or_eq_true], ?_⟩
    intro m hm
    simp [hm]
  · intro r h
    unfold parsear_autorizacao at h
    rw [Except.ok.injEq] at h
    subst h
    refine ⟨by simp [Bool.or_eq_true], ?_⟩
    intro m hm
    simp [hm]
  · intro r h
    unfold parsear_evento at h
    rw [Except.ok.injEq] at h
    subst h
    refine ⟨by simp [Bool.or_eq_true], ?_⟩
    intro m hm
    simp [hm]
  · simp [parsear_resposta_inutilizacao]
  · intro m hm
    simp [parsear_resposta_inutilizacao, hm]
  · simp [parsear_resposta_distribuicao, Bool.or_eq_true]
  · intro m hm
    simp [parsear_resposta_distribuicao, hm]

/-- Witness for C6 at a concrete batch-authorization response carrying the
documented code 104. -/
theorem claim_C6_witness :
    ∃ r, parsear_autorizacao
        (str "<cStat>104</cStat><xMotivo>Lote recebido</xMotivo>") = .ok r ∧
      r.sucesso = true ∧ r.motivo = str "Lote recebido" := by
  obtain ⟨h1, h2⟩ := (claim_C6_status_code_table
    (str "<cStat>104</cStat><xMotivo>Lote recebido</xMotivo>")).2.2.1 _ rfl
  exact ⟨_, rfl, h1.mpr (Or.inr (by decide)), h2 _ (by decide)⟩

/-- `gerar_xml_distribuicao` (distribuicao.rs:138-183).  For the
"since last NSU" mode the emitted `ultNSU` value is
`ultimo_nsu.unwrap_or("0").trim_start_matches('0')`. -/
def gerar_xml_distribuicao (dados : DadosConsultaDistribuicao)
    (codigo_uf ambiente : Nat) : List Char :=
  let is_cnpj := dados.documento.length = 14
  let doc_tag := if is_cnpj then str "CNPJ" else str "CPF"
  let consulta :=
    match dados.tipo_consulta with
    | .ConsultaNsu =>
      str "<consNSU>\n            <NSU>" ++ dados.nsu.getD (str "0") ++
        str "</NSU>\n        </consNSU>"
    | .ConsultaChave =>
      str "<consChNFe>\n            <chNFe>" ++ dados.chave_acesso.getD [] ++
        str "</chNFe>\n        </consChNFe>"
    | .DistribuicaoNsu =>
      str "<distNSU>\n            <ultNSU>" ++
        (dados.ultimo_nsu.getD (str "0")).dropWhile (fun c => c = '0') ++
        str "</ultNSU>\n        </distNSU>"
  str "<?xml version=\"1.0\" encoding=\"UTF-8\"?>\n<distDFeInt xmlns=\"http://www.portalfiscal.inf.br/nfe\" versao=\"1.01\">\n    <tpAmb>" ++
    natRepr ambiente ++ str "</tpAmb>\n    <cUFAutor>" ++ fmtPad 2 codigo_uf ++
    str "</cUFAutor>\n    <" ++ doc_tag ++ str ">" ++ dados.documento ++
    str "</" ++ doc_tag ++ str ">\n    " ++ consulta ++ str "\n</distDFeInt>"

set_option maxRecDepth 4000 in
/-- C9 (code bug): in "since last NSU" mode with no last NSU supplied,
validation succeeds (the field is optional), but the generated XML's `ultNSU`
element is empty rather than zero: the default `"0"` is passed through
`trim_start_matches('0')`, which deletes it, contradicting the code's own
comment "usa 0 se não informado" and the spec's "defaults to zero". -/
theorem claim_C9_ultnsu_empty :
    (DadosConsultaDistribuicao.validar
      ⟨str "12345678901", .DistribuicaoNsu, none, none, none⟩).isOk = true ∧
    extrair_tag (gerar_xml_distribuicao
      ⟨str "12345678901", .DistribuicaoNsu, none, none, none⟩ 35 1)
      (str "ultNSU") = some [] ∧
    extrair_tag (gerar_xml_distribuicao
      ⟨str "12345678901", .DistribuicaoNsu, none, none, none⟩ 35 1)
      (str "ultNSU") ≠ some (str "0") := by
  refine ⟨by decide, ?_, ?_⟩ <;> decide

/-! ## src/web/src/certificado/a1.rs — validity window -/

/-- chrono `Duration::num_days` on a duration of `secs` seconds: whole days,
truncated toward zero (i64 division). -/
def num_days (secs : Int) : Int := Int.tdiv secs 86400

/-- The validity fields of `CertificadoInfo` (a1.rs:21-22). -/
structure CertInfoValidade where
  valido : Bool
  dias_para_expirar : Int

/-- The validity computation of `extract_cert_info` (a1.rs:113-116):
`valido = now >= not_before && now <= not_after`,
`dias_para_expirar = (not_after - now).num_days()`, with all times in Unix
seconds. -/
def extract_cert_validade (not_before not_after now : Int) : CertInfoValidade :=
  { valido := decide (now ≥ not_before) && decide (now ≤ not_after),
    dias_para_expirar := num_days (not_after - now) }

/-- `CertificadoA1::is_valid` (a1.rs:231-233):
`info.valido && info.dias_para_expirar > 0`. -/
def is_valid (info : CertInfoValidade) : Bool :=
  info.valido && decide (info.dias_para_expirar > 0)

theorem is_valid_iff (nb na now : Int) :
    is_valid (extract_cert_validade nb na now) = true ↔
      (nb ≤ now ∧ now ≤ na ∧ 0 < (na - now).tdiv 86400) := by
  simp [is_valid, extract_cert_validade, num_days, Bool.and_eq_true,
    decide_eq_true_eq, and_assoc]

/-- C7 counterexample: a time strictly inside the validity window (window of
100 seconds, now at its middle) for which `is_valid` is false, because fewer
than 86400 seconds remain and `dias_para_expirar` truncates to 0. -/
theorem claim_C7_counterexample :
    (0:Int) < 50 ∧ (50:Int) < 100 ∧
      is_valid (extract_cert_validade 0 100 50) = false := by
  decide

/-- C7 (corrected): `is_valid` is false whenever `now` is outside the
validity window, and true strictly inside the window only when at least one
full day (86400 seconds) remains before `not_after`; strictly inside with
less than a full day left it is false. -/
theorem claim_C7_amended (nb na now : Int) :
    ((now < nb ∨ na < now) → is_valid (extract_cert_validade nb na now) = false) ∧
    (nb < now → now < na → 86400 ≤ na - now →
      is_valid (extract_cert_validade nb na now) = true) ∧
    (nb < now → now < na → na - now < 86400 →
      is_valid (extract_cert_validade nb na now) = false) := by
  refine ⟨?_, ?_, ?_⟩
  · intro h
    rw [Bool.eq_false_iff, Ne, is_valid_iff]
    omega
  · intro h1 h2 h3
    rw [is_valid_iff]
    have he : (na - now).tdiv 86400 = (na - now) / 86400 :=
      Int.tdiv_eq_ediv (by omega) (by norm_num)
    rw [he]
    omega
  · intro h1 h2 h3
    rw [Bool.eq_false_iff, Ne, is_valid_iff]
    have he : (na - now).tdiv 86400 = (na - now) / 86400 :=
      Int.tdiv_eq_ediv (by omega) (by norm_num)
    rw [he]
    omega

/-- Witness for the amended C7: one time deep inside the window (valid) and
one outside (invalid). -/
theorem claim_C7_witness :
    is_valid (extract_cert_validade 0 200000 50000) = true ∧
      is_valid (extract_cert_validade 0 200000 300000) = false :=
  ⟨(claim_C7_amended 0 200000 50000).2.1 (by norm_num) (by norm_num) (by norm_num),
   (claim_C7_amended 0 200000 300000).1 (Or.inr (by norm_num))⟩

/-! ## src/web/src/certificado/assinatura.rs -/

/-- The external collaborators `AssinadorXml` calls into — SHA-256 (`sha2`
crate), base64 (`base64` crate), RSA-PKCS#1-v1.5 signing with the
certificate's private key (`rsa` crate), the `regex` crate's replacement of
`>\s+<` by `><`, and the certificate's base64 rendering.  They are opaque
library code, not part of this repository; the placement property C8 holds for
every choice of them. -/
structure AssinadorExterno where
  calculate_digest : List Char → List Nat
  base64_encode : List Nat → List Char
  sign_rsa_sha256 : List Char → Except (List Char) (List Nat)
  regexColapsarEntreTags : List Char → List Char
  cert_base64 : List Char

/-- Scan loop behind `replaceAll`; the fuel argument only bounds the recursion
depth (the haystack's length is always enough fuel, since every step consumes
at least one character). -/
def replaceAllAux (pat rep : List Char) : Nat → List Char → List Char
  | 0, hay => hay
  | fuel + 1, hay =>
    if pat ≠ [] ∧ leadsWith pat hay = true then
      rep ++ replaceAllAux pat rep fuel (hay.drop pat.length)
    else
      match hay with
      | [] => []
      | c :: rest => c :: replaceAllAux pat rep fuel rest

/-- Rust `str::replace(pat, rep)` for a nonempty literal pattern:
non-overlapping left-to-right replacement.  (The Rust version also accepts an
empty pattern; every call site here uses a nonempty literal.) -/
def replaceAll (pat rep hay : List Char) : List Char :=
  replaceAllAux pat rep hay.length hay

/-- `AssinadorXml::canonicalize` (assinatura.rs:117-138): strip the XML
declaration, normalize line endings to LF, collapse whitespace between
adjacent tags (the regex call, abstracted). -/
def canonicalize (A : AssinadorExterno) (xml : List Char) :
    Except (List Char) (List Char) :=
  let r1 :=
    match findSub xml (str "<?xml") with
    | some _ =>
      match findSub xml (str "?>") with
      | some decl_end => (xml.drop (decl_end + 2)).dropWhile Char.isWhitespace
      | none => xml
    | none => xml
  let r2 := replaceAll ['\x0d', '\n'] ['\n'] r1
  let r3 := replaceAll ['\x0d'] ['\n'] r2
  .ok (A.regexColapsarEntreTags r3)

/-- `AssinadorXml::find_element` (assinatura.rs:93-103): byte range from the
first `<element` to the end of the first `</element>`.  (When the end tag
precedes the start tag Rust would panic at the subsequent slice; the embedding
returns the empty slice there and fails at the `Id` lookup instead — both are
non-success outcomes.) -/
def find_element (xml element : List Char) : Except (List Char) (Nat × Nat) :=
  match findSub xml ('<' :: element) with
  | none => .error (str "Elemento nao encontrado")
  | some start =>
    match findSub xml ('<' :: '/' :: element ++ ['>']) with
    | none => .error (str "Fim do elemento nao encontrado")
    | some e => .ok (start, e + ('<' :: '/' :: element ++ ['>']).length)

/-- `AssinadorXml::extract_id` (assinatura.rs:105-113). -/
def extract_id (xml : List Char) : Except (List Char) (List Char) :=
  match findSub xml (str "Id=\"") with
  | none => .error (str "Atributo Id nao encontrado")
  | some id_start =>
    let id_value_start := id_start + 4
    match findSub (xml.drop id_value_start) ['\"'] with
    | none => .error (str "Fim do atributo Id nao encontrado")
    | some id_value_end => .ok (fatia xml id_value_start (id_value_start + id_value_end))

/-- `AssinadorXml::create_signed_info` (assinatura.rs:146-165). -/
def create_signed_info (reference_id digest_value : List Char) : List Char :=
  str "<SignedInfo xmlns=\"http://www.w3.org/2000/09/xmldsig#\"><CanonicalizationMethod Algorithm=\"http://www.w3.org/TR/2001/REC-xml-c14n-20010315\"/><SignatureMethod Algorithm=\"http://www.w3.org/2001/04/xmldsig-more#rsa-sha256\"/><Reference URI=\"#" ++
  reference_id ++
  str "\"><Transforms><Transform Algorithm=\"http://www.w3.org/2000/09/xmldsig#enveloped-signature\"/><Transform Algorithm=\"http://www.w3.org/TR/2001/REC-xml-c14n-20010315\"/></Transforms><DigestMethod Algorithm=\"http://www.w3.org/2001/04/xmlenc#sha256\"/><DigestValue>" ++
  digest_value ++ str "</DigestValue></Reference></SignedInfo>"

/-- `AssinadorXml::create_signature_element` (assinatura.rs:167-183). -/
def create_signature_element (signed_info signature_value cert_b64 : List Char) :
    List Char :=
  str "<Signature xmlns=\"http://www.w3.org/2000/09/xmldsig#\">" ++ signed_info ++
  str "<SignatureValue>" ++ signature_value ++
  str "</SignatureValue><KeyInfo><X509Data><X509Certificate>" ++ cert_b64 ++
  str "</X509Certificate></X509Data></KeyInfo></Signature>"

/-- `AssinadorXml::insert_signature` (assinatura.rs:185-189). -/
def insert_signature (xml signature : List Char) (position : Nat) :
    Except (List Char) (List Char) :=
  .ok (xml.take position ++ signature ++ xml.drop position)

/-- `AssinadorXml::assinar_elemento` (assinatura.rs:42-77), with the Rust
function's local bindings (`elem_content`, `digest`, `digest_b64`,
`signed_info`, `signature_b64`, `signature_element`) inlined. -/
def assinar_elemento (A : AssinadorExterno) (xml element_name : List Char) :
    Except (List Char) (List Char) :=
  match find_element xml element_name with
  | .error e => .error e
  | .ok (elem_start, elem_end) =>
    match extract_id (fatia xml elem_start elem_end) with
    | .error e => .error e
    | .ok id =>
      match canonicalize A (fatia xml elem_start elem_end) with
      | .error e => .error e
      | .ok canonical =>
        match canonicalize A
          (create_signed_info id (A.base64_encode (A.calculate_digest canonical))) with
        | .error e => .error e
        | .ok signed_info_canonical =>
          match A.sign_rsa_sha256 signed_info_canonical with
          | .error e => .error e
          | .ok signature_value =>
            insert_signature xml
              (create_signature_element
                (create_signed_info id (A.base64_encode (A.calculate_digest canonical)))
                (A.base64_encode signature_value) A.cert_base64)
              elem_end

theorem leadsWith_length {pat hay : List Char} (h : leadsWith pat hay = true) :
    pat.length ≤ hay.length := by
  induction pat generalizing hay with
  | nil => simp
  | cons p ps ih =>
    cases hay with
    | nil => exact absurd h (by simp [leadsWith])
    | cons c cs =>
      simp only [leadsWith, Bool.and_eq_true] at h
      simpa using ih h.2

theorem findSubAux_bound (pat : List Char) :
    ∀ hay i j, findSubAux pat hay i = some j → i ≤ j ∧ j - i + pat.length ≤ hay.length := by
  intro hay
  induction hay with
  | nil =>
    intro i j h
    unfold findSubAux at h
    split at h
    · rw [Option.some.injEq] at h
      subst h
      refine ⟨le_rfl, ?_⟩
      have := leadsWith_length (by assumption)
      simpa using this
    · exact Option.noConfusion h
  | cons c cs ih =>
    intro i j h
    unfold findSubAux at h
    split at h
    · rw [Option.some.injEq] at h
      subst h
      refine ⟨le_rfl, ?_⟩
      have := leadsWith_length (by assumption)
      simpa using this
    · obtain ⟨h1, h2⟩ := ih (i + 1) j h
      refine ⟨by omega, ?_⟩
      simp only [List.length_cons]
      omega

theorem findSub_bound {hay pat : List Char} {j : Nat} (h : findSub hay pat = some j) :
    j + pat.length ≤ hay.length := by
  obtain ⟨h1, h2⟩ := findSubAux_bound pat hay 0 j h
  omega

/-- C8: whenever signing succeeds, the returned document is the input with the
assembled `Signature` element inserted immediately after the end of the first
occurrence of the element's closing tag: the characters before the insertion
point and the characters after it are unchanged from the input. -/
theorem claim_C8_enveloped_placement (A : AssinadorExterno)
    (xml element_name res : List Char)
    (h : assinar_elemento A xml element_name = .ok res) :
    ∃ e si sb,
      findSub xml ('<' :: '/' :: element_name ++ ['>']) = some e ∧
      res = xml.take (e + element_name.length + 3) ++
        create_signature_element si sb A.cert_base64 ++
        xml.drop (e + element_name.length + 3) ∧
      res.take (e + element_name.length + 3) =
        xml.take (e + element_name.length + 3) ∧
      res.drop (e + element_name.length + 3 +
          (create_signature_element si sb A.cert_base64).length) =
        xml.drop (e + element_name.length + 3) := by
  unfold assinar_elemento at h
  split at h
  · exact Except.noConfusion h
  rename_i elem_start elem_end hfe
  split at h
  · exact Except.noConfusion h
  rename_i id hid
  split at h
  · exact Except.noConfusion h
  rename_i canonical hcan
  split at h
  · exact Except.noConfusion h
  rename_i sic hsic
  split at h
  · exact Except.noConfusion h
  rename_i sigval hsig
  unfold insert_signature at h
  rw [Except.ok.injEq] at h
  unfold find_element at hfe
  split at hfe
  · exact Except.noConfusion hfe
  split at hfe
  · exact Except.noConfusion hfe
  rename_i start hst e hend
  rw [Except.ok.injEq, Prod.mk.injEq] at hfe
  obtain ⟨hfe1, hfe2⟩ := hfe
  have hlen : ('<' :: '/' :: element_name ++ ['>']).length = element_name.length + 3 := by
    simp
  have hpos : elem_end = e + element_name.length + 3 := by omega
  have hle : e + element_name.length + 3 ≤ xml.length := by
    have := findSub_bound hend
    omega
  have htk : (xml.take (e + element_name.length + 3)).length =
      e + element_name.length + 3 := by
    rw [List.length_take]
    omega
  subst hpos
  refine ⟨e, _, _, hend, h.symm, ?_, ?_⟩
  · rw [← h, List.append_assoc]
    exact List.take_left' htk
  · rw [← h, List.drop_left']
    rw [List.length_append, htk]

set_option maxRecDepth 8000 in
/-- Witness for C8: a concrete document signed with concrete (dummy) external
collaborators. -/
theorem claim_C8_witness :
    ∃ e si sb,
      findSub (str "<e Id=\"1\">x</e>") ('<' :: '/' :: (str "e") ++ ['>']) = some e ∧
      str "<e Id=\"1\">x</e><Signature xmlns=\"http://www.w3.org/2000/09/xmldsig#\"><SignedInfo xmlns=\"http://www.w3.org/2000/09/xmldsig#\"><CanonicalizationMethod Algorithm=\"http://www.w3.org/TR/2001/REC-xml-c14n-20010315\"/><SignatureMethod Algorithm=\"http://www.w3.org/2001/04/xmldsig-more#rsa-sha256\"/><Reference URI=\"#1\"><Transforms><Transform Algorithm=\"http://www.w3.org/2000/09/xmldsig#enveloped-signature\"/><Transform Algorithm=\"http://www.w3.org/TR/2001/REC-xml-c14n-20010315\"/></Transforms><DigestMethod Algorithm=\"http://www.w3.org/2001/04/xmlenc#sha256\"/><DigestValue>DIG</DigestValue></Reference></SignedInfo><SignatureValue>DIG</SignatureValue><KeyInfo><X509Data><X509Certificate>CERT</X509Certificate></X509Data></KeyInfo></Signature>" =
        (str "<e Id=\"1\">x</e>").take (e + (str "e").length + 3) ++
        create_signature_element si sb (str "CERT") ++
        (str "<e Id=\"1\">x</e>").drop (e + (str "e").length + 3) ∧
      (str "<e Id=\"1\">x</e><Signature xmlns=\"http://www.w3.org/2000/09/xmldsig#\"><SignedInfo xmlns=\"http://www.w3.org/2000/09/xmldsig#\"><CanonicalizationMethod Algorithm=\"http://www.w3.org/TR/2001/REC-xml-c14n-20010315\"/><SignatureMethod Algorithm=\"http://www.w3.org/2001/04/xmldsig-more#rsa-sha256\"/><Reference URI=\"#1\"><Transforms><Transform Algorithm=\"http://www.w3.org/2000/09/xmldsig#enveloped-signature\"/><Transform Algorithm=\"http://www.w3.org/TR/2001/REC-xml-c14n-20010315\"/></Transforms><DigestMethod Algorithm=\"http://www.w3.org/2001/04/xmlenc#sha256\"/><DigestValue>DIG</DigestValue></Reference></SignedInfo><SignatureValue>DIG</SignatureValue><KeyInfo><X509Data><X509Certificate>CERT</X509Certificate></X509Data></KeyInfo></Signature>").take (e + (str "e").length + 3) =
        (str "<e Id=\"1\">x</e>").take (e + (str "e").length + 3) ∧
      (str "<e Id=\"1\">x</e><Signature xmlns=\"http://www.w3.org/2000/09/xmldsig#\"><SignedInfo xmlns=\"http://www.w3.org/2000/09/xmldsig#\"><CanonicalizationMethod Algorithm=\"http://www.w3.org/TR/2001/REC-xml-c14n-20010315\"/><SignatureMethod Algorithm=\"http://www.w3.org/2001/04/xmldsig-more#rsa-sha256\"/><Reference URI=\"#1\"><Transforms><Transform Algorithm=\"http://www.w3.org/2000/09/xmldsig#enveloped-signature\"/><Transform Algorithm=\"http://www.w3.org/TR/2001/REC-xml-c14n-20010315\"/></Transforms><DigestMethod Algorithm=\"http://www.w3.org/2001/04/xmlenc#sha256\"/><DigestValue>DIG</DigestValue></Reference></SignedInfo><SignatureValue>DIG</SignatureValue><KeyInfo><X509Data><X509Certificate>CERT</X509Certificate></X509Data></KeyInfo></Signature>").drop (e + (str "e").length + 3 +
          (create_signature_element si sb (str "CERT")).length) =
        (str "<e Id=\"1\">x</e>").drop (e + (str "e").length + 3) :=
  claim_C8_enveloped_placement
    ⟨fun _ => [], fun _ => str "DIG", fun _ => .ok [1], fun r => r, str "CERT"⟩
    (str "<e Id=\"1\">x</e>") (str "e") (str "<e Id=\"1\">x</e><Signature xmlns=\"http://www.w3.org/2000/09/xmldsig#\"><SignedInfo xmlns=\"http://www.w3.org/2000/09/xmldsig#\"><CanonicalizationMethod Algorithm=\"http://www.w3.org/TR/2001/REC-xml-c14n-20010315\"/><SignatureMethod Algorithm=\"http://www.w3.org/2001/04/xmldsig-more#rsa-sha256\"/><Reference URI=\"#1\"><Transforms><Transform Algorithm=\"http://www.w3.org/2000/09/xmldsig#enveloped-signature\"/><Transform Algorithm=\"http://www.w3.org/TR/2001/REC-xml-c14n-20010315\"/></Transforms><DigestMethod Algorithm=\"http://www.w3.org/2001/04/xmlenc#sha256\"/><DigestValue>DIG</DigestValue></Reference></SignedInfo><SignatureValue>DIG</SignatureValue><KeyInfo><X509Data><X509Certificate>CERT</X509Certificate></X509Data></KeyInfo></Signature>") (by decide)

/-! ### First-occurrence semantics of the tag scan (C10) -/

theorem findSubAux_shift (pat : List Char) : ∀ (hay : List Char) (i : Nat),
    findSubAux pat hay i = (findSubAux pat hay 0).map (fun k => k + i) := by
  intro hay
  induction hay with
  | nil =>
    intro i
    unfold findSubAux
    split
    all_goals simp
  | cons c cs ih =>
    intro i
    by_cases hl : leadsWith pat (c :: cs) = true
    · unfold findSubAux
      rw [if_pos hl, if_pos hl]
      simp
    · unfold findSubAux
      rw [if_neg hl, if_neg hl, ih (i + 1), ih 1]
      cases h0 : findSubAux pat cs 0
      all_goals simp
      omega

theorem leadsWith_self_append (p rest : List Char) : leadsWith p (p ++ rest) = true := by
  induction p with
  | nil => rfl
  | cons c cs ih => simp [leadsWith, ih]

theorem findSub_of_first (pat : List Char) : ∀ (hay : List Char) (j : Nat),
    leadsWith pat (hay.drop j) = true →
    (∀ i, i < j → leadsWith pat (hay.drop i) = false) →
    findSub hay pat = some j := by
  intro hay
  induction hay with
  | nil =>
    intro j hj hmin
    have hj0 : j = 0 := by
      by_contra h0
      have h := hmin 0 (by omega)
      rw [List.drop_nil] at hj h
      rw [hj] at h
      exact Bool.noConfusion h
    subst hj0
    unfold findSub findSubAux
    rw [if_pos (by simpa using hj)]
  | cons c cs ih =>
    intro j hj hmin
    cases j with
    | zero =>
      unfold findSub findSubAux
      rw [if_pos (by simpa using hj)]
    | succ jp =>
      have h0 : leadsWith pat (c :: cs) = false := by simpa using hmin 0 (by omega)
      unfold findSub findSubAux
      rw [if_neg (by simp [h0]), findSubAux_shift pat cs 1,
        show findSubAux pat cs 0 = findSub cs pat from rfl,
        ih jp (by simpa using hj) (fun i hi => by simpa using hmin (i + 1) (by omega))]
      simp

/-- The value returned by `extract_xml_value` comes from the first `<tag>`
occurrence and the first `</tag>` after it, whatever follows. -/
theorem extract_first (tag pre v rest : List Char)
    (h1 : ∀ i, i < pre.length →
      leadsWith ('<' :: tag ++ ['>'])
        ((pre ++ ('<' :: tag ++ ['>']) ++ v ++ ('<' :: '/' :: tag ++ ['>']) ++ rest).drop i)
        = false)
    (h2 : ∀ i, i < v.length →
      leadsWith ('<' :: '/' :: tag ++ ['>'])
        ((v ++ ('<' :: '/' :: tag ++ ['>']) ++ rest).drop i) = false) :
    extract_xml_value
      (pre ++ ('<' :: tag ++ ['>']) ++ v ++ ('<' :: '/' :: tag ++ ['>']) ++ rest) tag
      = some v := by
  have hfind1 : findSub
      (pre ++ ('<' :: tag ++ ['>']) ++ v ++ ('<' :: '/' :: tag ++ ['>']) ++ rest)
      ('<' :: tag ++ ['>']) = some pre.length := by
    apply findSub_of_first
    · rw [show pre ++ ('<' :: tag ++ ['>']) ++ v ++ ('<' :: '/' :: tag ++ ['>']) ++ rest =
        pre ++ (('<' :: tag ++ ['>']) ++ (v ++ ('<' :: '/' :: tag ++ ['>']) ++ rest)) from by
          simp [List.append_assoc],
        List.drop_left]
      exact leadsWith_self_append _ _
    · exact h1
  have hdrop : (pre ++ ('<' :: tag ++ ['>']) ++ v ++ ('<' :: '/' :: tag ++ ['>']) ++
      rest).drop (pre.length + ('<' :: tag ++ ['>']).length) =
      v ++ ('<' :: '/' :: tag ++ ['>']) ++ rest := by
    rw [show pre ++ ('<' :: tag ++ ['>']) ++ v ++ ('<' :: '/' :: tag ++ ['>']) ++ rest =
      (pre ++ ('<' :: tag ++ ['>'])) ++ (v ++ ('<' :: '/' :: tag ++ ['>']) ++ rest) from by
        simp [List.append_assoc],
      show pre.length + ('<' :: tag ++ ['>']).length =
        (pre ++ ('<' :: tag ++ ['>'])).length from by simp,
      List.drop_left]
  have hfind2 : findSub (v ++ ('<' :: '/' :: tag ++ ['>']) ++ rest)
      ('<' :: '/' :: tag ++ ['>']) = some v.length := by
    apply findSub_of_first
    · rw [show v ++ ('<' :: '/' :: tag ++ ['>']) ++ rest =
        v ++ (('<' :: '/' :: tag ++ ['>']) ++ rest) from by simp [List.append_assoc],
        List.drop_left]
      exact leadsWith_self_append _ _
    · exact h2
  have hfat : fatia (pre ++ ('<' :: tag ++ ['>']) ++ v ++ ('<' :: '/' :: tag ++ ['>']) ++
      rest) (pre.length + ('<' :: tag ++ ['>']).length)
      (pre.length + ('<' :: tag ++ ['>']).length + v.length) = v := by
    rw [show pre ++ ('<' :: tag ++ ['>']) ++ v ++ ('<' :: '/' :: tag ++ ['>']) ++ rest =
      (pre ++ ('<' :: tag ++ ['>'])) ++ (v ++ (('<' :: '/' :: tag ++ ['>']) ++ rest)) from by
        simp [List.append_assoc]]
    exact fatia_of_append (by simp) rfl
  simp only [extract_xml_value, hfind1, hdrop, hfind2, hfat]

/-- C10: tag extraction reads the first occurrence of the tag in document
order: when the response decomposes as `pre ++ <tag> ++ v ++ </tag> ++ rest`
with no earlier start-tag occurrence (before `pre.length`) and no end-tag
occurrence inside `v`, the extracted value is `v` regardless of `rest` — in
particular later duplicate occurrences in `rest` have no effect; and the batch
authorization parser's success flag (and status-code field) are computed from
that first `cStat` value alone. -/
theorem claim_C10_first_occurrence_wins :
    (∀ tag pre v rest : List Char,
      (∀ i, i < pre.length →
        leadsWith ('<' :: tag ++ ['>'])
          ((pre ++ ('<' :: tag ++ ['>']) ++ v ++ ('<' :: '/' :: tag ++ ['>']) ++
            rest).drop i) = false) →
      (∀ i, i < v.length →
        leadsWith ('<' :: '/' :: tag ++ ['>'])
          ((v ++ ('<' :: '/' :: tag ++ ['>']) ++ rest).drop i) = false) →
      extract_xml_value
        (pre ++ ('<' :: tag ++ ['>']) ++ v ++ ('<' :: '/' :: tag ++ ['>']) ++ rest) tag
        = some v) ∧
    (∀ pre v rest : List Char,
      (∀ i, i < pre.length →
        leadsWith ('<' :: str "cStat" ++ ['>'])
          ((pre ++ ('<' :: str "cStat" ++ ['>']) ++ v ++
            ('<' :: '/' :: str "cStat" ++ ['>']) ++ rest).drop i) = false) →
      (∀ i, i < v.length →
        leadsWith ('<' :: '/' :: str "cStat" ++ ['>'])
          ((v ++ ('<' :: '/' :: str "cStat" ++ ['>']) ++ rest).drop i) = false) →
      ∀ r, parsear_autorizacao
        (pre ++ ('<' :: str "cStat" ++ ['>']) ++ v ++
          ('<' :: '/' :: str "cStat" ++ ['>']) ++ rest) = .ok r →
      (r.sucesso = (decide (v = str "100") || decide (v = str "104")) ∧
       r.codigo_status = v)) := by
  constructor
  · intro tag pre v rest h1 h2
    exact extract_first tag pre v rest h1 h2
  · intro pre v rest h1 h2 r h
    have he := extract_first (str "cStat") pre v rest h1 h2
    unfold parsear_autorizacao at h
    rw [Except.ok.injEq] at h
    subst h
    simp only [List.append_assoc, List.cons_append, List.nil_append] at he
    simp [he]

/-- Witness for C10: a response containing `cStat` twice (104 then 999); the
extracted value and the success flag come from the first occurrence. -/
theorem claim_C10_witness :
    extract_xml_value
      (str "<a>" ++ ('<' :: str "cStat" ++ ['>']) ++ str "104" ++
        ('<' :: '/' :: str "cStat" ++ ['>']) ++ str "<cStat>999</cStat>")
      (str "cStat") = some (str "104") ∧
    ∀ r, parsear_autorizacao
      (str "<a>" ++ ('<' :: str "cStat" ++ ['>']) ++ str "104" ++
        ('<' :: '/' :: str "cStat" ++ ['>']) ++ str "<cStat>999</cStat>") = .ok r →
      (r.sucesso = (decide (str "104" = str "100") || decide (str "104" = str "104")) ∧
       r.codigo_status = str "104") :=
  ⟨claim_C10_first_occurrence_wins.1 (str "cStat") (str "<a>") (str "104")
      (str "<cStat>999</cStat>") (by decide) (by decide),
   claim_C10_first_occurrence_wins.2 (str "<a>") (str "104")
      (str "<cStat>999</cStat>") (by decide) (by decide)⟩
